import Mathlib

/-!
Verification of the tool-calling orchestration engine and fare-response
normalization engine of the python-whatsapp-bot repository.

The development shallowly embeds the relevant Python code:

* `src/app/infrastructure/providers/langchain_provider.py`
  (model token limits, dynamic context limits, the `_handle_tool_calls`
  orchestration loop, the tool wrapper `tool_func`),
* `src/app/utils/flight_response_parser.py`
  (`merge_date_time`, `calculate_total_duration_with_layovers`,
  `parse_flight_search_response`),
* `src/app/infrastructure/providers/response_parsers/`
  (the response-parser registry and the flight-search response parser),
* `src/app/infrastructure/providers/message_instructions/`
  (the instruction registry, text elided).

Machine arithmetic conventions: Python's `int(x)` truncates toward zero, so
nonnegative float expressions `int(a * 0.6)`, `int(a * 3.5)`, `int(a / 3.5)`,
`int(a * 0.4 / 500)` are modelled by the exact rational floors
`a * 6 / 10`, `a * 7 / 2`, `a * 2 / 7`, `a * 4 / 5000` over `Nat`.  The IEEE
double evaluation agrees with the exact rational floor at every capacity value
reachable from `get_model_token_limit` (8192, 16385, 128000), which was checked
value by value.  Signed truncating division (`int` of a possibly negative
quotient) is modelled by `Int.tdiv`.
-/

/- ===================================================================
   Section 1 — model token limits and dynamic context limits
   (langchain_provider.py, lines 52-158)
   =================================================================== -/

/-- The `MODEL_TOKEN_LIMITS` dict, in insertion order. -/
def MODEL_TOKEN_LIMITS : List (String × Nat) :=
  [("gpt-4o", 128000),
   ("gpt-4o-mini", 128000),
   ("gpt-4-turbo", 128000),
   ("gpt-4", 8192),
   ("gpt-3.5-turbo", 16385),
   ("gpt-3.5-turbo-16k", 16385)]

/-- Python `s.startswith(pre)`. -/
def py_startswith (s pre : String) : Bool := pre.data.isPrefixOf s.data

/-- Python `needle in haystack` for lists of characters. -/
def list_isInfix [BEq α] : List α → List α → Bool
  | needle, [] => needle.isEmpty
  | needle, x :: rest => needle.isPrefixOf (x :: rest) || list_isInfix needle rest

/-- Python `sub in s` (substring containment). -/
def py_contains (s sub : String) : Bool := list_isInfix sub.data s.data

/-- `estimate_tokens_from_chars`: the Python function only uses `len(text)`
(`if not text` is `len(text) == 0`), so it is modelled on the length.
`int(len / 3.5)` is the exact rational floor `len * 2 / 7`. -/
def estimate_tokens_from_chars (text_len : Nat) : Nat :=
  if text_len = 0 then 0 else text_len * 2 / 7

/-- `get_model_token_limit`: exact dict hit, then first `startswith` hit in
dict insertion order, then 128000 for strings containing "gpt-4o" or
"gpt-4-turbo", then the 128000 fallback. -/
def get_model_token_limit (model : String) : Nat :=
  match MODEL_TOKEN_LIMITS.find? (fun p => model == p.1) with
  | some p => p.2
  | none =>
    match MODEL_TOKEN_LIMITS.find? (fun p => py_startswith model p.1) with
    | some p => p.2
    | none =>
      if py_contains model "gpt-4o" || py_contains model "gpt-4-turbo" then
        128000
      else
        128000

/-- The dictionary returned by `calculate_context_limits`. -/
structure ContextLimits where
  max_total_tokens : Nat
  max_tool_message_tokens : Nat
  max_tool_message_chars : Nat
  max_flights_in_context : Nat
  max_chars_per_flight : Nat
  max_history_messages : Nat
deriving DecidableEq, Repr

/-- `calculate_context_limits(model, reserved_tokens=5000)`.  The Python
float expressions are modelled by exact rational floors (see the header
comment); `"x" * avg_chars_per_flight` has length 1500. -/
def calculate_context_limits (model : String) (reserved_tokens : Nat := 5000) :
    ContextLimits :=
  let max_tokens := get_model_token_limit model
  let available_tokens := max_tokens - reserved_tokens
  let max_tool_message_tokens := available_tokens * 6 / 10
  let max_tool_message_chars := max_tool_message_tokens * 7 / 2
  let avg_chars_per_flight := 1500
  let estimated_tokens_per_flight := estimate_tokens_from_chars avg_chars_per_flight
  let max_flights_in_context :=
    max 5 (max_tool_message_tokens / estimated_tokens_per_flight)
  let max_chars_per_flight :=
    min 2000 (max_tool_message_chars / max_flights_in_context)
  let estimated_tokens_per_message := 500
  let max_history_messages :=
    max 5 (available_tokens * 4 / (10 * estimated_tokens_per_message))
  { max_total_tokens := max_tokens
    max_tool_message_tokens := max_tool_message_tokens
    max_tool_message_chars := max_tool_message_chars
    max_flights_in_context := max_flights_in_context
    max_chars_per_flight := max_chars_per_flight
    max_history_messages := max_history_messages }

/-- Every value `get_model_token_limit` can return. -/
theorem get_model_token_limit_mem (model : String) :
    get_model_token_limit model = 8192 ∨ get_model_token_limit model = 16385 ∨
    get_model_token_limit model = 128000 := by
  unfold get_model_token_limit
  rcases h1 : MODEL_TOKEN_LIMITS.find? (fun p => model == p.1) with _ | p
  · rw [h1]
    rcases h2 : MODEL_TOKEN_LIMITS.find? (fun p => py_startswith model p.1) with _ | q
    · rw [h2]
      by_cases h3 : (py_contains model "gpt-4o" || py_contains model "gpt-4-turbo") = true
      · simp [h3]
      · simp [h3]
    · have hq := List.mem_of_find?_eq_some h2
      rw [h2]
      fin_cases hq <;> simp
  · have hp := List.mem_of_find?_eq_some h1
    rw [h1]
    fin_cases hp <;> simp

/-- Limits for a model with an 8192-token capacity. -/
theorem calculate_context_limits_8192 (model : String)
    (h : get_model_token_limit model = 8192) :
    calculate_context_limits model 5000 =
      { max_total_tokens := 8192, max_tool_message_tokens := 1915,
        max_tool_message_chars := 6702, max_flights_in_context := 5,
        max_chars_per_flight := 1340, max_history_messages := 5 } := by
  simp only [calculate_context_limits, h, estimate_tokens_from_chars]
  decide

/-- Limits for a model with a 16385-token capacity. -/
theorem calculate_context_limits_16385 (model : String)
    (h : get_model_token_limit model = 16385) :
    calculate_context_limits model 5000 =
      { max_total_tokens := 16385, max_tool_message_tokens := 6831,
        max_tool_message_chars := 23908, max_flights_in_context := 15,
        max_chars_per_flight := 1593, max_history_messages := 9 } := by
  simp only [calculate_context_limits, h, estimate_tokens_from_chars]
  decide

/-- Limits for a model with a 128000-token capacity. -/
theorem calculate_context_limits_128000 (model : String)
    (h : get_model_token_limit model = 128000) :
    calculate_context_limits model 5000 =
      { max_total_tokens := 128000, max_tool_message_tokens := 73800,
        max_tool_message_chars := 258300, max_flights_in_context := 172,
        max_chars_per_flight := 1501, max_history_messages := 98 } := by
  simp only [calculate_context_limits, h, estimate_tokens_from_chars]
  decide

/-- C1 (counterexample): "gpt-3.5-turbo" has a strictly smaller total token
capacity than "gpt-4o" (16385 < 128000), yet its derived
`max_chars_per_flight` is strictly larger (1593 > 1501): increasing a model's
total token capacity does decrease a derived limit. -/
theorem context_limits_monotonicity_counterexample :
    (calculate_context_limits "gpt-3.5-turbo" 5000).max_total_tokens <
      (calculate_context_limits "gpt-4o" 5000).max_total_tokens ∧
    (calculate_context_limits "gpt-4o" 5000).max_chars_per_flight <
      (calculate_context_limits "gpt-3.5-turbo" 5000).max_chars_per_flight := by
  rw [calculate_context_limits_16385 "gpt-3.5-turbo" (by decide),
      calculate_context_limits_128000 "gpt-4o" (by decide)]
  decide

/-- C1 (amended): for every model identifier,
`max_flights_in_context ≤ max_total_tokens / estimated_tokens_per_flight`
(with the estimated tokens of a 1500-character flight string), and for any two
model identifiers where the second has a strictly larger total token capacity,
none of the derived limits other than `max_chars_per_flight` is smaller for
the second; `max_chars_per_flight` is not monotone (see the counterexample). -/
theorem context_limits_budget_monotonicity_amended :
    (∀ model : String,
      (calculate_context_limits model 5000).max_flights_in_context ≤
        (calculate_context_limits model 5000).max_total_tokens /
          estimate_tokens_from_chars 1500) ∧
    (∀ m1 m2 : String,
      get_model_token_limit m1 < get_model_token_limit m2 →
      (calculate_context_limits m1 5000).max_total_tokens ≤
        (calculate_context_limits m2 5000).max_total_tokens ∧
      (calculate_context_limits m1 5000).max_tool_message_tokens ≤
        (calculate_context_limits m2 5000).max_tool_message_tokens ∧
      (calculate_context_limits m1 5000).max_tool_message_chars ≤
        (calculate_context_limits m2 5000).max_tool_message_chars ∧
      (calculate_context_limits m1 5000).max_flights_in_context ≤
        (calculate_context_limits m2 5000).max_flights_in_context ∧
      (calculate_context_limits m1 5000).max_history_messages ≤
        (calculate_context_limits m2 5000).max_history_messages) := by
  constructor
  · intro model
    rcases get_model_token_limit_mem model with h | h | h
    · rw [calculate_context_limits_8192 model h]; decide
    · rw [calculate_context_limits_16385 model h]; decide
    · rw [calculate_context_limits_128000 model h]; decide
  · intro m1 m2 hlt
    rcases get_model_token_limit_mem m1 with h1 | h1 | h1 <;>
      rcases get_model_token_limit_mem m2 with h2 | h2 | h2 <;>
        rw [h1, h2] at hlt
    · exact absurd hlt (by decide)
    · rw [calculate_context_limits_8192 m1 h1,
          calculate_context_limits_16385 m2 h2]
      refine ⟨by decide, by decide, by decide, by decide, by decide⟩
    · rw [calculate_context_limits_8192 m1 h1,
          calculate_context_limits_128000 m2 h2]
      refine ⟨by decide, by decide, by decide, by decide, by decide⟩
    · exact absurd hlt (by decide)
    · exact absurd hlt (by decide)
    · rw [calculate_context_limits_16385 m1 h1,
          calculate_context_limits_128000 m2 h2]
      refine ⟨by decide, by decide, by decide, by decide, by decide⟩
    · exact absurd hlt (by decide)
    · exact absurd hlt (by decide)
    · exact absurd hlt (by decide)

/-- C1 witness: the amended theorem applied to the concrete pair
("gpt-4", 8192 tokens) and ("gpt-3.5-turbo", 16385 tokens). -/
theorem context_limits_budget_monotonicity_amended_witness :
    (calculate_context_limits "gpt-4" 5000).max_flights_in_context ≤
      (calculate_context_limits "gpt-4" 5000).max_total_tokens /
        estimate_tokens_from_chars 1500 ∧
    (calculate_context_limits "gpt-4" 5000).max_total_tokens ≤
      (calculate_context_limits "gpt-3.5-turbo" 5000).max_total_tokens := by
  refine ⟨context_limits_budget_monotonicity_amended.1 "gpt-4", ?_⟩
  exact (context_limits_budget_monotonicity_amended.2 "gpt-4" "gpt-3.5-turbo"
    (by decide)).1

/-- C10: `calculate_context_limits` is total over all model strings and, for
every model string, `max_flights_in_context ≥ 5`, `max_history_messages ≥ 5`
and `max_chars_per_flight ≤ 2000`; moreover a model string recognized neither
exactly nor by prefix (nor by the substring checks, both branches of which
yield 128000) is assigned the 128000-token capacity. -/
theorem context_limits_bounds :
    (∀ model : String,
      5 ≤ (calculate_context_limits model 5000).max_flights_in_context ∧
      5 ≤ (calculate_context_limits model 5000).max_history_messages ∧
      (calculate_context_limits model 5000).max_chars_per_flight ≤ 2000) ∧
    (∀ model : String,
      MODEL_TOKEN_LIMITS.find? (fun p => model == p.1) = none →
      MODEL_TOKEN_LIMITS.find? (fun p => py_startswith model p.1) = none →
      get_model_token_limit model = 128000) := by
  constructor
  · intro model
    refine ⟨Nat.le_max_left _ _, Nat.le_max_left _ _, Nat.min_le_left _ _⟩
  · intro model h1 h2
    unfold get_model_token_limit
    rw [h1, h2]
    by_cases h3 : (py_contains model "gpt-4o" || py_contains model "gpt-4-turbo") = true
    · simp [h3]
    · simp [h3]

/-- C10 witness: the bounds at the unrecognized model string "llama-3-70b",
which is assigned the default 128000-token capacity. -/
theorem context_limits_bounds_witness :
    (5 ≤ (calculate_context_limits "llama-3-70b" 5000).max_flights_in_context ∧
     5 ≤ (calculate_context_limits "llama-3-70b" 5000).max_history_messages ∧
     (calculate_context_limits "llama-3-70b" 5000).max_chars_per_flight ≤ 2000) ∧
    get_model_token_limit "llama-3-70b" = 128000 :=
  ⟨context_limits_bounds.1 "llama-3-70b",
   context_limits_bounds.2 "llama-3-70b" (by decide) (by decide)⟩

/- ===================================================================
   Section 2 — JSON value model and Python-semantics helpers
   =================================================================== -/

/-- JSON-representable Python values as they occur in tool results and in the
Starlings fare response.  Numbers are modelled as integers: every numeric
field the claims exercise (durations, counts, amounts) is integral. -/
inductive JValue where
  | null
  | bool (b : Bool)
  | num (n : Int)
  | str (s : String)
  | arr (xs : List JValue)
  | obj (kvs : List (String × JValue))

/-- Python truthiness of a JSON value. -/
def truthy : JValue → Bool
  | .null => false
  | .bool b => b
  | .num n => n != 0
  | .str s => !s.isEmpty
  | .arr xs => !xs.isEmpty
  | .obj kvs => !kvs.isEmpty

/-- Python `d.get(k, default)` on a dict. -/
def jGet (kvs : List (String × JValue)) (k : String) (default : JValue) : JValue :=
  match kvs.find? (fun p => p.1 == k) with
  | some p => p.2
  | none => default

/-- Python `k in d` on a dict. -/
def jHasKey (kvs : List (String × JValue)) (k : String) : Bool :=
  (kvs.find? (fun p => p.1 == k)).isSome

/-- Python `len(v)` where defined (`list`, `str`, `dict`); `none` models the
`TypeError` raised on other types. -/
def pyLen : JValue → Option Nat
  | .arr xs => some xs.length
  | .str s => some s.length
  | .obj kvs => some kvs.length
  | _ => none

/-- Python `a or b`. -/
def pyOr (a b : JValue) : JValue := if truthy a then a else b

/-- Python `str(v)` / f-string interpolation.  Faithful for `str`, `int`,
`bool` and `None`; the repr of containers (never exercised by any claim) is
approximated by a constant. -/
def pyStr : JValue → String
  | .str s => s
  | .num n => toString n
  | .bool b => if b then "True" else "False"
  | .null => "None"
  | .arr _ => "[...]"
  | .obj _ => "\x7b...\x7d"

/-- Python `s.strip()` (both-ends whitespace strip). -/
def py_strip (s : String) : String :=
  String.mk (((s.data.dropWhile Char.isWhitespace).reverse.dropWhile
    Char.isWhitespace).reverse)

/- ===================================================================
   Section 3 — datetime model (CPython `datetime.fromisoformat` and
   timedelta arithmetic, restricted to the naive ISO shape produced by
   `merge_date_time`)
   =================================================================== -/

/-- Proleptic Gregorian leap year (CPython `calendar.isleap`). -/
def pyIsLeap (y : Nat) : Bool := (y % 4 == 0 && y % 100 != 0) || y % 400 == 0

/-- Days in a month of the proleptic Gregorian calendar. -/
def pyDaysInMonth (y m : Nat) : Nat :=
  if m = 2 then (if pyIsLeap y then 29 else 28)
  else if m = 4 ∨ m = 6 ∨ m = 9 ∨ m = 11 then 30
  else 31

/-- Days in all years before year `y`. -/
def daysBeforeYear (y : Nat) : Nat :=
  365 * (y - 1) + ((y - 1) / 4 - (y - 1) / 100) + (y - 1) / 400

/-- Days in all months of year `y` before month `m`. -/
def daysBeforeMonth (y m : Nat) : Nat :=
  (List.range (m - 1)).foldl (fun acc i => acc + pyDaysInMonth y (i + 1)) 0

/-- CPython `datetime.toordinal()`: proleptic Gregorian day number with
0001-01-01 as day 1. -/
def toOrdinal (y m d : Nat) : Nat := daysBeforeYear y + daysBeforeMonth y m + d

/-- A naive CPython `datetime` (fields already validated). -/
structure PyDateTime where
  year : Nat
  month : Nat
  day : Nat
  hour : Nat
  minute : Nat
  second : Nat
deriving DecidableEq, Repr

/-- Seconds from the start of day ordinal 0 to this datetime; only
differences of these values are ever used (timedelta arithmetic). -/
def PyDateTime.totalSeconds (dt : PyDateTime) : Nat :=
  toOrdinal dt.year dt.month dt.day * 86400 +
    dt.hour * 3600 + dt.minute * 60 + dt.second

/-- Value of a list of decimal digit characters. -/
def digitsToNat (cs : List Char) : Nat :=
  cs.foldl (fun acc c => acc * 10 + (c.toNat - 48)) 0

/-- `datetime.fromisoformat`, restricted to the full naive
`YYYY-MM-DDTHH:MM:SS` shape, which is the only shape `merge_date_time`
produces for well-formed provider date/time fields.  `none` models
`ValueError`.  Offset-aware forms (only reachable when provider fields embed
a timezone designator) are out of this model's scope and map to `none`. -/
def fromisoformat (s : String) : Option PyDateTime :=
  match s.data with
  | [y1, y2, y3, y4, '-', m1, m2, '-', d1, d2, 'T',
     h1, h2, ':', n1, n2, ':', s1, s2] =>
    if [y1, y2, y3, y4, m1, m2, d1, d2, h1, h2, n1, n2, s1, s2].all Char.isDigit then
      let y := digitsToNat [y1, y2, y3, y4]
      let mo := digitsToNat [m1, m2]
      let d := digitsToNat [d1, d2]
      let h := digitsToNat [h1, h2]
      let mi := digitsToNat [n1, n2]
      let se := digitsToNat [s1, s2]
      if 1 ≤ y ∧ 1 ≤ mo ∧ mo ≤ 12 ∧ 1 ≤ d ∧ d ≤ pyDaysInMonth y mo ∧
          h ≤ 23 ∧ mi ≤ 59 ∧ se ≤ 59 then
        some ⟨y, mo, d, h, mi, se⟩
      else none
    else none
  | _ => none

/-- `s.replace('Z', '+00:00')`. -/
def py_replace_Z (s : String) : String :=
  String.mk (s.data.foldr
    (fun c acc =>
      if c = 'Z' then '+' :: '0' :: '0' :: ':' :: '0' :: '0' :: acc
      else c :: acc) [])

/- ===================================================================
   Section 4 — flight_response_parser.py: segments and durations
   =================================================================== -/

/-- `merge_date_time(date_str, time_str)`. -/
def merge_date_time (date_str time_str : String) : String :=
  date_str ++ "T" ++ time_str ++ ":00"

/-- A segment dict as built by `parse_flight_search_response` (lines
189-210).  Display-only fields keep their raw JSON values; the two merged
datetime strings are always `str` in Python and are typed as such. -/
structure ParsedSegment where
  airline : JValue
  operatingAirline : JValue
  flightNumber : JValue
  bookingClass : JValue
  cabinClass : JValue
  departureAirport : JValue
  departureCity : JValue
  arrivalAirport : JValue
  arrivalCity : JValue
  departureDateTime : String
  arrivalDateTime : String
  duration : JValue
  baggage : JValue
  brandName : JValue

/-- Numeric value of a segment `duration` field as used by Python `sum`
(`bool` counts as 0/1).  A non-numeric duration makes the Python `sum`
raise `TypeError`; such values — unreachable from a numeric provider
feed — are modelled as 0. -/
def jNumOr0 : JValue → Int
  | .num n => n
  | .bool b => if b then 1 else 0
  | _ => 0

/-- `sum(seg.get('duration', 0) for seg in segments)` (the `duration` key is
always present on a parsed segment). -/
def sum_segment_durations (segments : List ParsedSegment) : Int :=
  (segments.map (fun seg => jNumOr0 seg.duration)).sum

/-- One step of the layover recovery loop in the missing-datetime fallback
branch of `calculate_total_duration_with_layovers` (lines 62-80). -/
def segment_pair_layover (current next_seg : ParsedSegment) : Int :=
  let curr_arrival := current.arrivalDateTime
  let next_departure := next_seg.departureDateTime
  if curr_arrival ≠ "" ∧ next_departure ≠ "" then
    match fromisoformat (py_replace_Z curr_arrival),
        fromisoformat (py_replace_Z next_departure) with
    | some arrival_dt, some departure_dt =>
      let layover_minutes :=
        Int.tdiv ((departure_dt.totalSeconds : Int) - arrival_dt.totalSeconds) 60
      if 0 < layover_minutes then layover_minutes else 0
    | _, _ => 0
  else 0

/-- The `total_layover_time` accumulation over adjacent segment pairs. -/
def total_layover_time : List ParsedSegment → Int
  | a :: b :: rest => segment_pair_layover a b + total_layover_time (b :: rest)
  | _ => 0

/-- `calculate_total_duration_with_layovers(segments)` (lines 29-113). -/
def calculate_total_duration_with_layovers (segments : List ParsedSegment) : Int :=
  match segments with
  | [] => 0
  | first :: rest =>
    let last := List.getLast (first :: rest) (List.cons_ne_nil first rest)
    let departure_str := first.departureDateTime
    let arrival_str := last.arrivalDateTime
    if departure_str = "" ∨ arrival_str = "" then
      sum_segment_durations (first :: rest) + total_layover_time (first :: rest)
    else
      match fromisoformat (py_replace_Z departure_str),
          fromisoformat (py_replace_Z arrival_str) with
      | some departure_dt, some arrival_dt =>
        let total_minutes :=
          Int.tdiv ((arrival_dt.totalSeconds : Int) - departure_dt.totalSeconds) 60
        if total_minutes < 0 then sum_segment_durations (first :: rest)
        else total_minutes
      | _, _ => sum_segment_durations (first :: rest)

/-- The per-leg duration selection implemented (twice, inline) in
`parse_flight_search_response` lines 364-371 and 381-388: use the provider
`OptionDuration` when truthy and strictly positive, otherwise fall back to
`calculate_total_duration_with_layovers`. -/
def leg_duration_from_option (option_duration : Option Int)
    (segments : List ParsedSegment) : Int :=
  match option_duration with
  | some n =>
    if 0 < n then n else calculate_total_duration_with_layovers segments
  | none => calculate_total_duration_with_layovers segments

/-- `calculate_total_duration_with_layovers` when both boundary strings are
non-empty and both parse: the truncated-minutes delta, with the
negative-delta fallback. -/
theorem calculate_total_duration_of_parse (first : ParsedSegment)
    (rest : List ParsedSegment) (ddt adt : PyDateTime)
    (hdep : first.departureDateTime ≠ "")
    (harr : (List.getLast (first :: rest)
      (List.cons_ne_nil first rest)).arrivalDateTime ≠ "")
    (hd : fromisoformat (py_replace_Z first.departureDateTime) = some ddt)
    (ha : fromisoformat (py_replace_Z (List.getLast (first :: rest)
      (List.cons_ne_nil first rest)).arrivalDateTime) = some adt) :
    calculate_total_duration_with_layovers (first :: rest) =
      if Int.tdiv ((adt.totalSeconds : Int) - ddt.totalSeconds) 60 < 0 then
        sum_segment_durations (first :: rest)
      else Int.tdiv ((adt.totalSeconds : Int) - ddt.totalSeconds) 60 := by
  simp only [calculate_total_duration_with_layovers]
  rw [if_neg (by push_neg; exact ⟨hdep, harr⟩), hd, ha]

/-- `calculate_total_duration_with_layovers` when both boundary strings are
non-empty but a boundary timestamp fails to parse: the segment-duration sum. -/
theorem calculate_total_duration_of_parse_fail (first : ParsedSegment)
    (rest : List ParsedSegment)
    (hdep : first.departureDateTime ≠ "")
    (harr : (List.getLast (first :: rest)
      (List.cons_ne_nil first rest)).arrivalDateTime ≠ "")
    (h : fromisoformat (py_replace_Z first.departureDateTime) = none ∨
      fromisoformat (py_replace_Z (List.getLast (first :: rest)
        (List.cons_ne_nil first rest)).arrivalDateTime) = none) :
    calculate_total_duration_with_layovers (first :: rest) =
      sum_segment_durations (first :: rest) := by
  simp only [calculate_total_duration_with_layovers]
  rw [if_neg (by push_neg; exact ⟨hdep, harr⟩)]
  rcases h with h | h
  · rw [h]
  · rw [h]
    rcases fromisoformat (py_replace_Z first.departureDateTime) with _ | d <;> rfl

/-- C2: for a leg whose (merged) boundary datetime strings are non-empty, the
per-leg duration follows the preference order of the source: (1) a present,
strictly positive provider `OptionDuration` is used unchanged; (2) otherwise,
when both boundary timestamps parse and the last-arrival minus first-departure
delta (truncated minutes) is nonnegative, that delta is used; (3) a negative
delta or an unusable boundary timestamp falls back to the sum of the
segments' own duration fields. -/
theorem leg_duration_preference_order (od : Option Int)
    (first : ParsedSegment) (rest : List ParsedSegment)
    (hdep : first.departureDateTime ≠ "")
    (harr : (List.getLast (first :: rest)
      (List.cons_ne_nil first rest)).arrivalDateTime ≠ "") :
    (∀ n : Int, od = some n → 0 < n →
      leg_duration_from_option od (first :: rest) = n) ∧
    ((∀ n : Int, od = some n → n ≤ 0) →
      (∀ ddt adt : PyDateTime,
        fromisoformat (py_replace_Z first.departureDateTime) = some ddt →
        fromisoformat (py_replace_Z (List.getLast (first :: rest)
          (List.cons_ne_nil first rest)).arrivalDateTime) = some adt →
        (0 ≤ Int.tdiv ((adt.totalSeconds : Int) - ddt.totalSeconds) 60 →
          leg_duration_from_option od (first :: rest) =
            Int.tdiv ((adt.totalSeconds : Int) - ddt.totalSeconds) 60) ∧
        (Int.tdiv ((adt.totalSeconds : Int) - ddt.totalSeconds) 60 < 0 →
          leg_duration_from_option od (first :: rest) =
            sum_segment_durations (first :: rest))) ∧
      ((fromisoformat (py_replace_Z first.departureDateTime) = none ∨
        fromisoformat (py_replace_Z (List.getLast (first :: rest)
          (List.cons_ne_nil first rest)).arrivalDateTime) = none) →
        leg_duration_from_option od (first :: rest) =
          sum_segment_durations (first :: rest))) := by
  have hleg : (∀ n : Int, od = some n → n ≤ 0) →
      leg_duration_from_option od (first :: rest) =
        calculate_total_duration_with_layovers (first :: rest) := by
    intro hle
    cases od with
    | none => rfl
    | some n =>
      have hn : ¬ 0 < n := by have := hle n rfl; omega
      simp [leg_duration_from_option, hn]
  refine ⟨?_, ?_⟩
  · intro n hn hpos
    subst hn
    simp [leg_duration_from_option, hpos]
  · intro hle
    refine ⟨?_, ?_⟩
    · intro ddt adt hd ha
      rw [hleg hle, calculate_total_duration_of_parse first rest ddt adt hdep harr hd ha]
      constructor
      · intro hnn
        rw [if_neg (by omega)]
      · intro hneg
        rw [if_pos hneg]
    · intro h
      rw [hleg hle, calculate_total_duration_of_parse_fail first rest hdep harr h]

/-- A concrete parsed segment for test data (display fields arbitrary). -/
def mkTestSegment (dep arr : String) (dur : Int) : ParsedSegment :=
  { airline := .str "AA", operatingAirline := .str "", flightNumber := .num 100,
    bookingClass := .str "Y", cabinClass := .str "economy",
    departureAirport := .str "AAA", departureCity := .str "",
    arrivalAirport := .str "BBB", arrivalCity := .str "",
    departureDateTime := dep, arrivalDateTime := arr,
    duration := .num dur, baggage := .str "1PC", brandName := .null }

/-- First segment of the 2-segment example leg of the spec: departs
2024-01-01 08:00. -/
def c2_first : ParsedSegment :=
  mkTestSegment (merge_date_time "2024-01-01" "08:00")
    (merge_date_time "2024-01-01" "10:30") 150

/-- Second segment of the 2-segment example leg: arrives 2024-01-01 14:30. -/
def c2_second : ParsedSegment :=
  mkTestSegment (merge_date_time "2024-01-01" "11:15")
    (merge_date_time "2024-01-01" "14:30") 195

/-- C2 witness: the spec's 2-segment example leg (08:00 → 14:30): provider
duration 420 is used unchanged; provider duration 0 (missing) yields the
390-minute delta. -/
theorem leg_duration_preference_order_witness :
    leg_duration_from_option (some 420) [c2_first, c2_second] = 420 ∧
    leg_duration_from_option (some 0) [c2_first, c2_second] = 390 := by
  constructor
  · exact (leg_duration_preference_order (some 420) c2_first [c2_second]
      (by decide) (by decide)).1 420 rfl (by decide)
  · have h := (((leg_duration_preference_order (some 0) c2_first [c2_second]
        (by decide) (by decide)).2
      (by intro n hn; injection hn with h; omega)).1
      ⟨2024, 1, 1, 8, 0, 0⟩ ⟨2024, 1, 1, 14, 30, 0⟩ (by decide) (by decide)).1
      (by decide)
    rw [h]
    decide

/- ===================================================================
   Section 5 — parsed flight options and per-option context statistics
   (flight_response_parser.py, lines 160-505)
   =================================================================== -/

/-- The `price` sub-dict of a parsed option (lines 213-222). -/
structure PriceInfo where
  base : JValue
  taxes : JValue
  service : JValue
  commission : JValue
  total : JValue
  totalWithFees : JValue
  currency : JValue
  paxCount : JValue

/-- One entry of `legs_info` (lines 173-178). -/
structure LegInfo where
  legNumber : JValue
  flightOptionID : JValue
  optionDuration : JValue

/-- A `parsed_option` dict (lines 261-277).  `OptionDuration` values are
stored as `Option Int`: JSON `null` / an absent key map to `none` (Python
`None`); numeric values to `some`.  (A non-numeric truthy `OptionDuration`
would raise `TypeError` at the `> 0` comparison and is out of scope.) -/
structure ParsedOption where
  id : JValue
  validatingCarrier : JValue
  totalAmount : JValue
  currency : JValue
  lastTicketingDate : JValue
  segments : List ParsedSegment
  outbound_segments : List ParsedSegment
  return_segments : List ParsedSegment
  is_round_trip : Bool
  price : PriceInfo
  recommendation_id : JValue
  approval_evaluation_status : JValue
  legs : List LegInfo
  outbound_option_duration : Option Int
  return_option_duration : Option Int

/-- The values interpolated into one `all_flights_context` string (lines
286-496).  The string itself is a fixed interpolation of these fields;
fields no claim references (airlines, baggage status, route, policy
status) are omitted from the record. -/
structure FlightContextEntry where
  fare_id : JValue
  flight_type : String
  total_duration : Int
  outbound_duration : Int
  return_duration : Int
  outbound_num_segments : Nat
  outbound_num_stops : Nat
  return_num_segments : Nat
  return_num_stops : Nat
  num_segments : Nat
  num_stops : Nat
  departure_datetime : String
  arrival_datetime : String
  total_amount : JValue
  currency : JValue

/-- The per-option statistics computed for one `all_flights_context` entry
(lines 286-405): leg durations by the OptionDuration preference, and the
round-trip/one-way total-duration split of lines 393-403. -/
def flight_context_entry (option : ParsedOption) : FlightContextEntry :=
  let segments := option.segments
  let is_round_trip := option.is_round_trip
  let outbound_segments := option.outbound_segments
  let return_segments := option.return_segments
  let outbound_num_segments := outbound_segments.length
  let outbound_num_stops := outbound_num_segments - 1
  let outbound_duration :=
    leg_duration_from_option option.outbound_option_duration outbound_segments
  let return_num_segments := return_segments.length
  let return_num_stops :=
    if return_segments.isEmpty then 0 else return_num_segments - 1
  let return_duration :=
    if !return_segments.isEmpty then
      leg_duration_from_option option.return_option_duration return_segments
    else 0
  let num_segments := segments.length
  let num_stops := num_segments - 1
  let total_duration :=
    if is_round_trip && !return_segments.isEmpty then
      outbound_duration + return_duration
    else
      calculate_total_duration_with_layovers segments
  let first_dep :=
    match segments.head? with
    | some s => s.departureDateTime
    | none => ""
  let last_arr :=
    match segments.getLast? with
    | some s => s.arrivalDateTime
    | none => ""
  { fare_id := option.id
    flight_type :=
      if is_round_trip && !return_segments.isEmpty then "RoundTrip" else "OneWay"
    total_duration := total_duration
    outbound_duration := outbound_duration
    return_duration := return_duration
    outbound_num_segments := outbound_num_segments
    outbound_num_stops := outbound_num_stops
    return_num_segments := return_num_segments
    return_num_stops := return_num_stops
    num_segments := num_segments
    num_stops := num_stops
    departure_datetime := first_dep
    arrival_datetime := last_arr
    total_amount := option.totalAmount
    currency := option.currency }

/-- A one-way option carrying a positive provider OptionDuration of 420 on
its single leg, whose segment deltas give 390 minutes. -/
def c3_oneway_option : ParsedOption :=
  { id := .str "F1", validatingCarrier := .str "AA", totalAmount := .num 500,
    currency := .str "USD", lastTicketingDate := .str "2024-01-01",
    segments := [c2_first, c2_second],
    outbound_segments := [c2_first, c2_second],
    return_segments := [],
    is_round_trip := false,
    price := ⟨.num 400, .num 100, .num 0, .num 0, .num 500, .num 500,
      .str "USD", .num 1⟩,
    recommendation_id := .str "", approval_evaluation_status := .str "",
    legs := [⟨.num 1, .str "FO1", .num 420⟩],
    outbound_option_duration := some 420, return_option_duration := none }

/-- C3 (counterexample): a one-way option whose provider leg duration is 420
gets a context total duration of 390 — the one-way total is NOT computed by
the per-leg preference rule (which would yield 420), but directly by the
delta-with-fallback computation over the full segment list. -/
theorem oneway_total_ignores_option_duration :
    (flight_context_entry c3_oneway_option).total_duration = 390 ∧
    leg_duration_from_option c3_oneway_option.outbound_option_duration
      c3_oneway_option.segments = 420 ∧
    (390 : Int) ≠ 420 := by
  refine ⟨by decide, by decide, by decide⟩

/-- C3 (amended): for every option flagged round-trip with non-empty return
segments, the context total duration is the sum of the outbound and return
leg durations (each computed by the per-leg preference rule), and for every
other option (in particular every one-way option) the total duration is
`calculate_total_duration_with_layovers` over the full segment list — the
delta-with-fallback computation, which does not consult the provider
OptionDuration. -/
theorem flight_context_total_duration (option : ParsedOption) :
    (option.is_round_trip = true → option.return_segments ≠ [] →
      (flight_context_entry option).total_duration =
        leg_duration_from_option option.outbound_option_duration
          option.outbound_segments +
        leg_duration_from_option option.return_option_duration
          option.return_segments) ∧
    (option.is_round_trip = false ∨ option.return_segments = [] →
      (flight_context_entry option).total_duration =
        calculate_total_duration_with_layovers option.segments) := by
  constructor
  · intro hrt hne
    have hne' : option.return_segments.isEmpty = false := by
      cases h : option.return_segments with
      | nil => exact absurd h hne
      | cons a l => rfl
    simp [flight_context_entry, hrt, hne']
  · intro h
    rcases h with h | h
    · simp [flight_context_entry, h]
    · simp [flight_context_entry, h]

/-- A round-trip option: outbound leg 300 minutes, return leg 280 minutes,
flat delta across both legs 3220 minutes, flat segment-duration sum 520. -/
def c3_roundtrip_option : ParsedOption :=
  { id := .str "F2", validatingCarrier := .str "AA", totalAmount := .num 900,
    currency := .str "USD", lastTicketingDate := .str "2024-01-01",
    segments :=
      [mkTestSegment (merge_date_time "2024-01-01" "08:00")
         (merge_date_time "2024-01-01" "10:00") 120,
       mkTestSegment (merge_date_time "2024-01-01" "10:45")
         (merge_date_time "2024-01-01" "13:00") 135,
       mkTestSegment (merge_date_time "2024-01-03" "09:00")
         (merge_date_time "2024-01-03" "13:40") 265],
    outbound_segments :=
      [mkTestSegment (merge_date_time "2024-01-01" "08:00")
         (merge_date_time "2024-01-01" "10:00") 120,
       mkTestSegment (merge_date_time "2024-01-01" "10:45")
         (merge_date_time "2024-01-01" "13:00") 135],
    return_segments :=
      [mkTestSegment (merge_date_time "2024-01-03" "09:00")
         (merge_date_time "2024-01-03" "13:40") 265],
    is_round_trip := true,
    price := ⟨.num 800, .num 100, .num 0, .num 0, .num 900, .num 900,
      .str "USD", .num 1⟩,
    recommendation_id := .str "", approval_evaluation_status := .str "",
    legs := [⟨.num 1, .str "FO1", .num 300⟩, ⟨.num 2, .str "FO2", .num 280⟩],
    outbound_option_duration := some 300, return_option_duration := some 280 }

/-- C3 witness: the amended theorem at the concrete round-trip option —
total 580 = 300 + 280, which is neither the flat delta across both legs
(3220) nor the flat segment-duration sum (520). -/
theorem flight_context_total_duration_witness :
    (flight_context_entry c3_roundtrip_option).total_duration = 580 ∧
    calculate_total_duration_with_layovers c3_roundtrip_option.segments = 3220 ∧
    sum_segment_durations c3_roundtrip_option.segments = 520 := by
  refine ⟨?_, by decide, by decide⟩
  rw [(flight_context_total_duration c3_roundtrip_option).1 rfl
    (List.cons_ne_nil _ _)]
  decide

/- ===================================================================
   Section 6 — parse_flight_search_response (lines 116-505)

   The three explicit `ValueError`s of the source are the `shape` errors;
   every other exception Python duck typing can raise on malformed fares
   (`AttributeError` / `TypeError` / `IndexError` / `KeyError`) flows
   through the `Except String` channel and is wrapped as a `typeError`.
   =================================================================== -/

/-- `v.get(...)` on an arbitrary value: only dicts have `get`
(`AttributeError` otherwise). -/
def asObj : JValue → Except String (List (String × JValue))
  | .obj kvs => .ok kvs
  | _ => .error "AttributeError: object has no attribute get"

/-- Python `for x in v`: lists yield elements, strings their characters,
dicts their keys; other types raise `TypeError`. -/
def pyIter : JValue → Except String (List JValue)
  | .arr xs => .ok xs
  | .str s => .ok (s.data.map (fun c => .str (String.mk [c])))
  | .obj kvs => .ok (kvs.map (fun kv => .str kv.1))
  | _ => .error "TypeError: object is not iterable"

/-- Python `v[0]`: lists and strings are subscriptable by 0; a dict raises
`KeyError`, other types `TypeError`; an empty sequence `IndexError`. -/
def pySubscriptZero : JValue → Except String JValue
  | .arr (x :: _) => .ok x
  | .arr [] => .error "IndexError: list index out of range"
  | .str s =>
    match s.data with
    | c :: _ => .ok (.str (String.mk [c]))
    | [] => .error "IndexError: string index out of range"
  | _ => .error "TypeError: object is not subscriptable"

/-- Python `len(v)` raising `TypeError` on unsized values. -/
def pyLenE (v : JValue) : Except String Nat :=
  match pyLen v with
  | some n => .ok n
  | none => .error "TypeError: object has no len"

/-- Python `leg_number == 1` (`True == 1` holds in Python). -/
def jEqOne : JValue → Bool
  | .num 1 => true
  | .bool b => b
  | _ => false

/-- Raw `OptionDuration` as the optional integer consumed by the duration
preference: JSON `null`/absent map to Python `None`; numbers to `some`. -/
def jOptDuration : JValue → Option Int
  | .num n => some n
  | _ => none

/-- Build one segment dict (lines 182-210). -/
def parse_segment (segment : JValue) : Except String ParsedSegment := do
  let segObj ← asObj segment
  let departure := jGet segObj "Departure" (.obj [])
  let arrival := jGet segObj "Arrival" (.obj [])
  let depObj ← asObj departure
  let arrObj ← asObj arrival
  let departure_city :=
    pyOr (jGet depObj "City" (.str "")) (pyOr (jGet depObj "CityName" (.str "")) (.str ""))
  let arrival_city :=
    pyOr (jGet arrObj "City" (.str "")) (pyOr (jGet arrObj "CityName" (.str "")) (.str ""))
  .ok
    { airline := jGet segObj "Airline" (.str "")
      operatingAirline := jGet segObj "OperatingAirline" (.str "")
      flightNumber := jGet segObj "FlightNumber" (.num 0)
      bookingClass := jGet segObj "BookingClass" (.str "")
      cabinClass := jGet segObj "CabinClass" (.str "")
      departureAirport := jGet depObj "AirportCode" (.str "")
      departureCity := departure_city
      arrivalAirport := jGet arrObj "AirportCode" (.str "")
      arrivalCity := arrival_city
      departureDateTime :=
        merge_date_time (pyStr (jGet depObj "Date" (.str "")))
          (pyStr (jGet depObj "Time" (.str "")))
      arrivalDateTime :=
        merge_date_time (pyStr (jGet arrObj "Date" (.str "")))
          (pyStr (jGet arrObj "Time" (.str "")))
      duration := jGet segObj "Duration" (.num 0)
      baggage := jGet segObj "Baggage" (.str "")
      brandName := jGet segObj "BrandName" .null }

/-- Segments of one option, in order. -/
def parse_segments_list : List JValue → Except String (List ParsedSegment)
  | [] => .ok []
  | s :: rest => do
    let seg ← parse_segment s
    let more ← parse_segments_list rest
    .ok (seg :: more)

/-- First legs pass (lines 166-210): `legs_info` entries and the flat
segment list, skipping legs without truthy, non-empty `Options`. -/
def legs_first_pass : List JValue → Except String (List LegInfo × List ParsedSegment)
  | [] => .ok ([], [])
  | leg :: rest => do
    let legObj ← asObj leg
    let options_val := jGet legObj "Options" .null
    if !truthy options_val then
      legs_first_pass rest
    else do
      let optLen ← pyLenE options_val
      if optLen == 0 then
        legs_first_pass rest
      else do
        let option ← pySubscriptZero options_val
        let optObj ← asObj option
        let li : LegInfo :=
          ⟨jGet legObj "LegNumber" .null, jGet optObj "FlightOptionID" .null,
           jGet optObj "OptionDuration" .null⟩
        let segsRaw ← pyIter (jGet optObj "Segments" (.arr []))
        let segs ← parse_segments_list segsRaw
        let (lis, more) ← legs_first_pass rest
        .ok (li :: lis, segs ++ more)

/-- Second legs pass (lines 235-259): separate the flat segment list into
outbound (last leg numbered 1 wins) and return (last other leg wins) slices,
tracking `segment_idx`, and keep each leg's raw `OptionDuration`. -/
def legs_second_pass :
    List JValue → List ParsedSegment → Nat →
    List ParsedSegment × List ParsedSegment × Option Int × Option Int →
    Except String (List ParsedSegment × List ParsedSegment × Option Int × Option Int)
  | [], _, _, acc => .ok acc
  | leg :: rest, segments, segment_idx, acc => do
    let legObj ← asObj leg
    let options_val := jGet legObj "Options" .null
    if !truthy options_val then
      legs_second_pass rest segments segment_idx acc
    else do
      let optLen ← pyLenE options_val
      if optLen == 0 then
        legs_second_pass rest segments segment_idx acc
      else do
        let option ← pySubscriptZero options_val
        let optObj ← asObj option
        let leg_number := jGet legObj "LegNumber" (.num 1)
        let num_segments_in_leg ← pyLenE (jGet optObj "Segments" (.arr []))
        let option_duration := jGet optObj "OptionDuration" .null
        let slice := (segments.drop segment_idx).take num_segments_in_leg
        if jEqOne leg_number then
          legs_second_pass rest segments (segment_idx + num_segments_in_leg)
            (slice, acc.2.1, jOptDuration option_duration, acc.2.2.2)
        else
          legs_second_pass rest segments (segment_idx + num_segments_in_leg)
            (acc.1, slice, acc.2.2.1, jOptDuration option_duration)

/-- Everything after the passenger-data skip check for one fare (lines
160-277); every success is a `some`. -/
def parse_fare_body (fareObj : List (String × JValue)) (paxFares : JValue) :
    Except String (Option ParsedOption) := do
  let pax ← pySubscriptZero paxFares
  let legsList ← pyIter (jGet fareObj "Legs" (.arr []))
  let fp ← legs_first_pass legsList
  let paxObj ← asObj pax
  let price : PriceInfo :=
    ⟨jGet fareObj "FareAmount" (.num 0), jGet fareObj "TaxAmount" (.num 0),
     jGet fareObj "ServiceAmount" (.num 0), jGet fareObj "CommissionAmount" (.num 0),
     jGet fareObj "TotalAmount" (.num 0), jGet fareObj "TotalAmountWithFees" (.num 0),
     jGet fareObj "Currency" (.str ""), jGet paxObj "Count" (.num 0)⟩
  let total_amount :=
    pyOr (jGet fareObj "TotalAmountWithFees" .null)
      (pyOr (jGet fareObj "TotalAmount" .null) (.num 0))
  let fare_id :=
    pyOr (jGet fareObj "FareID" .null)
      (pyOr (jGet fareObj "recommendation_id" .null) (.str "fare_unhashed"))
  let sp ← legs_second_pass legsList fp.2 0 ([], [], none, none)
  .ok (some
    { id := fare_id
      validatingCarrier := jGet fareObj "ValidatingCarrier" (.str "")
      totalAmount := total_amount
      currency := jGet fareObj "Currency" (.str "")
      lastTicketingDate := jGet fareObj "LastTicketingDate" (.str "")
      segments := fp.2
      outbound_segments := sp.1
      return_segments := sp.2.1
      is_round_trip := decide (1 < fp.1.length)
      price := price
      recommendation_id := jGet fareObj "recommendation_id" (.str "")
      approval_evaluation_status := jGet fareObj "approval_evaluation_status" (.str "")
      legs := fp.1
      outbound_option_duration := sp.2.2.1
      return_option_duration := sp.2.2.2 })

/-- One fare of the fare loop (lines 153-277): `none` models `continue`
(fare skipped for missing passenger data). -/
def parse_fare (fare : JValue) : Except String (Option ParsedOption) :=
  match fare with
  | .obj fareObj =>
    let paxFares := jGet fareObj "PaxFares" .null
    if !truthy paxFares then .ok none
    else
      match pyLen paxFares with
      | none => .error "TypeError: object has no len"
      | some paxLen =>
        if paxLen == 0 then .ok none
        else parse_fare_body fareObj paxFares
  | _ => .error "AttributeError: object has no attribute get"

/-- The fare loop. -/
def parse_fares : List JValue → Except String (List ParsedOption)
  | [] => .ok []
  | fare :: rest => do
    let o ← parse_fare fare
    let others ← parse_fares rest
    match o with
    | none => .ok others
    | some p => .ok (p :: others)

/-- Python `<` on the sort keys.  Numeric and string comparisons are
faithful; a mixed-type comparison raises `TypeError` in CPython and is
modelled as `false` (no claim depends on the order of a mixed-key list). -/
def jLt : JValue → JValue → Bool
  | .num a, .num b => a < b
  | .bool a, .num b => (if a then 1 else 0) < b
  | .num a, .bool b => a < (if b then 1 else 0)
  | .bool a, .bool b => (if a then 1 else 0) < (if b then 1 else 0)
  | .str a, .str b => a < b
  | _, _ => false

/-- Stable insertion: `x` is placed after every element strictly before it
in the target order and before every tied element. -/
def py_insort (lt : α → α → Bool) (x : α) : List α → List α
  | [] => [x]
  | y :: ys => if lt y x then y :: py_insort lt x ys else x :: y :: ys

/-- A stable sort by the strict order `lt` (ties keep list order). -/
def py_stable_sort (lt : α → α → Bool) : List α → List α
  | [] => []
  | x :: xs => py_insort lt x (py_stable_sort lt xs)

/-- `parsed_options.sort(key=..., reverse=(sort_order == 'most_expensive'))`:
CPython's Timsort is a stable sort; every stable sort of the same strict
key order produces the same list, and it is modelled here by stable
insertion sort (ascending on `totalAmount`, descending for
'most_expensive'). -/
def sort_parsed_options (opts : List ParsedOption) (sort_order : String) :
    List ParsedOption :=
  if sort_order == "most_expensive" then
    py_stable_sort (fun a b => jLt b.totalAmount a.totalAmount) opts
  else
    py_stable_sort (fun a b => jLt a.totalAmount b.totalAmount) opts

/-- The result dict of `parse_flight_search_response` (lines 498-503); each
`allFlightsContext` entry stands for its interpolated context string. -/
structure ParseResult where
  options : List ParsedOption
  allFlightsContext : List FlightContextEntry
  totalCount : Nat

/-- The error classes `parse_flight_search_response` can raise: the three
explicit `ValueError`s (`shape`) and the duck-typing exceptions
(`typeError`). -/
inductive ParseError where
  | shape (msg : String)
  | typeError (msg : String)

/-- `parse_flight_search_response(response, sort_order, limit)`. -/
def parse_flight_search_response (response : List (String × JValue))
    (sort_order : String := "cheapest") (limit : Nat := 5) :
    Except ParseError ParseResult :=
  if response.isEmpty || !jHasKey response "Fares" then
    .error (.shape "Invalid response: response.Fares is missing")
  else
    match jGet response "Fares" (.arr []) with
    | .arr fares =>
      if fares.isEmpty then
        .error (.shape "No fares found in response")
      else
        match parse_fares fares with
        | .error msg => .error (.typeError msg)
        | .ok parsed_options =>
          let sorted := sort_parsed_options parsed_options sort_order
          let all_flights_context := sorted.map flight_context_entry
          let limited_options := sorted.take limit
          .ok
            { options := limited_options
              allFlightsContext := all_flights_context
              totalCount := sorted.length }
    | _ => .error (.shape "Invalid response: response.Fares is not an array")

/-- The skip condition of the fare loop (line 156):
`not fare.get('PaxFares') or len(fare.get('PaxFares', [])) == 0`
(on fare dicts; a non-dict fare raises before the check). -/
def fare_skipped (f : JValue) : Bool :=
  match f with
  | .obj kvs =>
    let pax := jGet kvs "PaxFares" .null
    !truthy pax ||
      (match pyLen pax with
       | some 0 => true
       | _ => false)
  | _ => false

/-- A key that is present makes the dict non-empty. -/
theorem jHasKey_ne_nil {r : List (String × JValue)} {k : String}
    (h : jHasKey r k = true) : r.isEmpty = false := by
  cases r with
  | nil => simp [jHasKey] at h
  | cons a t => rfl

/-- An absent key makes `jGet` return the default. -/
theorem jGet_of_hasKey_false {r : List (String × JValue)} {k : String}
    (h : jHasKey r k = false) (d : JValue) : jGet r k d = d := by
  unfold jHasKey at h
  unfold jGet
  rcases hf : r.find? (fun p => p.1 == k) with _ | p
  · rw [hf]
  · rw [hf] at h; simp at h

/-- `parse_fare_body` never reports a skipped fare. -/
theorem parse_fare_body_ne_ok_none (fareObj : List (String × JValue))
    (paxFares : JValue) : parse_fare_body fareObj paxFares ≠ .ok none := by
  intro h
  simp only [parse_fare_body, bind, Except.bind] at h
  split at h
  · exact Except.noConfusion h
  · split at h
    · exact Except.noConfusion h
    · split at h
      · exact Except.noConfusion h
      · split at h
        · exact Except.noConfusion h
        · split at h
          · exact Except.noConfusion h
          · injection h with h2
            exact Option.noConfusion h2

/-- A fare reported skipped satisfies the skip condition. -/
theorem fare_skipped_of_parse_fare_none {f : JValue}
    (h : parse_fare f = .ok none) : fare_skipped f = true := by
  cases f with
  | obj kvs =>
    simp only [parse_fare] at h
    split at h
    · rename_i hpax
      simp only [Bool.not_eq_eq_eq_not, Bool.not_true] at hpax
      simp [fare_skipped, hpax]
    · rename_i hpax
      split at h
      · exact Except.noConfusion h
      · rename_i paxLen hlen
        split at h
        · rename_i hn
          simp only [beq_iff_eq] at hn
          subst hn
          simp [fare_skipped, hlen]
        · exact absurd h (parse_fare_body_ne_ok_none _ _)
  | null => exact Except.noConfusion h
  | bool b => exact Except.noConfusion h
  | num n => exact Except.noConfusion h
  | str s => exact Except.noConfusion h
  | arr xs => exact Except.noConfusion h

/-- A fare parsed into an option does not satisfy the skip condition. -/
theorem fare_not_skipped_of_parse_fare_some {f : JValue} {p : ParsedOption}
    (h : parse_fare f = .ok (some p)) : fare_skipped f = false := by
  cases f with
  | obj kvs =>
    simp only [parse_fare] at h
    split at h
    · injection h with h2
      exact Option.noConfusion h2
    · rename_i hpax
      split at h
      · exact Except.noConfusion h
      · rename_i paxLen hlen
        split at h
        · injection h with h2
          exact Option.noConfusion h2
        · rename_i hn
          simp only [Bool.not_eq_true] at hpax
          simp only [fare_skipped, hpax, Bool.not_false, Bool.false_or, hlen]
          cases paxLen with
          | zero => simp at hn
          | succ m => rfl
  | null => exact Except.noConfusion h
  | bool b => exact Except.noConfusion h
  | num n => exact Except.noConfusion h
  | str s => exact Except.noConfusion h
  | arr xs => exact Except.noConfusion h

/-- Length bookkeeping of the fare loop: parsed options plus skipped fares
account for every entry of the fare list. -/
theorem parse_fares_length :
    ∀ (fs : List JValue) (opts : List ParsedOption),
      parse_fares fs = .ok opts →
      opts.length + fs.countP fare_skipped = fs.length := by
  intro fs
  induction fs with
  | nil =>
    intro opts h
    simp only [parse_fares, Except.ok.injEq] at h
    subst h
    simp
  | cons f t ih =>
    intro opts h
    simp only [parse_fares, bind, Except.bind] at h
    split at h
    · exact Except.noConfusion h
    · rename_i o ho
      split at h
      · exact Except.noConfusion h
      · rename_i others hothers
        have iht := ih others hothers
        cases o with
        | none =>
          simp only [Except.ok.injEq] at h
          subst h
          rw [List.countP_cons, fare_skipped_of_parse_fare_none ho]
          simp only [List.length_cons]
          simp
          omega
        | some p =>
          simp only [Except.ok.injEq] at h
          subst h
          rw [List.countP_cons, fare_not_skipped_of_parse_fare_some ho]
          simp only [List.length_cons]
          simp
          omega

/-- Insertion preserves length plus one. -/
theorem py_insort_length (lt : α → α → Bool) (x : α) :
    ∀ l : List α, (py_insort lt x l).length = l.length + 1 := by
  intro l
  induction l with
  | nil => rfl
  | cons y ys ih =>
    simp only [py_insort]
    split
    · simp [ih]
    · simp

/-- Stable sorting preserves length. -/
theorem py_stable_sort_length (lt : α → α → Bool) :
    ∀ l : List α, (py_stable_sort lt l).length = l.length := by
  intro l
  induction l with
  | nil => rfl
  | cons x xs ih =>
    simp only [py_stable_sort]
    rw [py_insort_length, ih]
    rfl

/-- Sorting does not change the number of options. -/
theorem sort_parsed_options_length (opts : List ParsedOption) (so : String) :
    (sort_parsed_options opts so).length = opts.length := by
  unfold sort_parsed_options
  split <;> rw [py_stable_sort_length]

/-- Shape-error case analysis for `parse_flight_search_response`: the three
explicit `ValueError`s occur exactly when the fare list is absent, not a
list, or empty. -/
theorem parse_shape_cases (response : List (String × JValue))
    (sort_order : String) (limit : Nat) :
    (∃ msg, parse_flight_search_response response sort_order limit =
      .error (.shape msg)) ↔
    (jHasKey response "Fares" = false ∨
     (∀ xs : List JValue, jGet response "Fares" (.arr []) ≠ .arr xs) ∨
     jGet response "Fares" (.arr []) = .arr []) := by
  by_cases hk : jHasKey response "Fares" = true
  · have hne := jHasKey_ne_nil hk
    rcases hv : jGet response "Fares" (.arr []) with _ | b | n | s | xs | kvs
    · exact iff_of_true
        ⟨"Invalid response: response.Fares is not an array",
          by simp [parse_flight_search_response, hne, hk, hv]⟩
        (Or.inr (Or.inl (fun ys hy => JValue.noConfusion hy)))
    · exact iff_of_true
        ⟨"Invalid response: response.Fares is not an array",
          by simp [parse_flight_search_response, hne, hk, hv]⟩
        (Or.inr (Or.inl (fun ys hy => JValue.noConfusion hy)))
    · exact iff_of_true
        ⟨"Invalid response: response.Fares is not an array",
          by simp [parse_flight_search_response, hne, hk, hv]⟩
        (Or.inr (Or.inl (fun ys hy => JValue.noConfusion hy)))
    · exact iff_of_true
        ⟨"Invalid response: response.Fares is not an array",
          by simp [parse_flight_search_response, hne, hk, hv]⟩
        (Or.inr (Or.inl (fun ys hy => JValue.noConfusion hy)))
    · cases xs with
      | nil =>
        exact iff_of_true
          ⟨"No fares found in response",
            by simp [parse_flight_search_response, hne, hk, hv]⟩
          (Or.inr (Or.inr rfl))
      | cons x t =>
        apply iff_of_false
        · rintro ⟨msg, hm⟩
          rcases hp : parse_fares (x :: t) with m | opts <;>
            simp [parse_flight_search_response, hne, hk, hv, hp] at hm
        · rintro (h | h | h)
          · rw [h] at hk; exact Bool.noConfusion hk
          · exact h (x :: t) rfl
          · injection h with h2; exact List.noConfusion h2
    · exact iff_of_true
        ⟨"Invalid response: response.Fares is not an array",
          by simp [parse_flight_search_response, hne, hk, hv]⟩
        (Or.inr (Or.inl (fun ys hy => JValue.noConfusion hy)))
  · have hk' : jHasKey response "Fares" = false := by
      revert hk; cases jHasKey response "Fares" <;> simp
    exact iff_of_true
      ⟨"Invalid response: response.Fares is missing",
        by simp [parse_flight_search_response, hk']⟩
      (Or.inl hk')

/-- C4: the parse fails with an `InvalidResponseShape` error (`ValueError`)
if and only if the top-level `Fares` list is absent (including the
empty-response short circuit), present but not a list, or an empty list;
and for every response whose fare list is a non-empty list, the parse never
raises a shape error. -/
theorem parse_shape_error_iff (response : List (String × JValue))
    (sort_order : String) (limit : Nat) :
    ((∃ msg, parse_flight_search_response response sort_order limit =
        .error (.shape msg)) ↔
      (jHasKey response "Fares" = false ∨
       (∀ xs : List JValue, jGet response "Fares" (.arr []) ≠ .arr xs) ∨
       jGet response "Fares" (.arr []) = .arr [])) ∧
    (∀ xs : List JValue, jGet response "Fares" (.arr []) = .arr xs → xs ≠ [] →
      ∀ msg, parse_flight_search_response response sort_order limit ≠
        .error (.shape msg)) := by
  refine ⟨parse_shape_cases response sort_order limit, ?_⟩
  intro xs hxs hne msg hcontra
  rcases (parse_shape_cases response sort_order limit).mp ⟨msg, hcontra⟩
    with h | h | h
  · rw [jGet_of_hasKey_false h (.arr [])] at hxs
    injection hxs with h2
    exact hne h2.symm
  · exact h xs hxs
  · rw [hxs] at h
    injection h with h2
    exact hne h2

/-- C5: when the parse succeeds, `totalCount` is the fare-list length minus
the fares skipped for missing passenger data, the returned `options` list
has length `min limit totalCount`, and `allFlightsContext` always has one
entry per counted fare — the limit shortens neither `allFlightsContext` nor
`totalCount`. -/
theorem parse_counts (response : List (String × JValue)) (sort_order : String)
    (limit : Nat) (res : ParseResult) (fares : List JValue)
    (h : parse_flight_search_response response sort_order limit = .ok res)
    (hf : jGet response "Fares" (.arr []) = .arr fares) :
    res.totalCount = fares.length - fares.countP fare_skipped ∧
    res.options.length = min limit res.totalCount ∧
    res.allFlightsContext.length = res.totalCount := by
  by_cases hk : jHasKey response "Fares" = true
  · have hne := jHasKey_ne_nil hk
    cases fares with
    | nil => simp [parse_flight_search_response, hne, hk, hf] at h
    | cons x t =>
      rcases hp : parse_fares (x :: t) with m | opts
      · simp [parse_flight_search_response, hne, hk, hf, hp] at h
      · have heval : parse_flight_search_response response sort_order limit =
            .ok
              { options := (sort_parsed_options opts sort_order).take limit
                allFlightsContext :=
                  (sort_parsed_options opts sort_order).map flight_context_entry
                totalCount := (sort_parsed_options opts sort_order).length } := by
          simp [parse_flight_search_response, hne, hk, hf, hp]
        rw [heval] at h
        injection h with h2
        subst h2
        have hsl := sort_parsed_options_length opts sort_order
        have hpl := parse_fares_length (x :: t) opts hp
        refine ⟨?_, ?_, ?_⟩
        · show (sort_parsed_options opts sort_order).length =
            (x :: t).length - (x :: t).countP fare_skipped
          omega
        · show ((sort_parsed_options opts sort_order).take limit).length =
            min limit (sort_parsed_options opts sort_order).length
          rw [List.length_take]
        · show ((sort_parsed_options opts sort_order).map
              flight_context_entry).length =
            (sort_parsed_options opts sort_order).length
          rw [List.length_map]
  · have hk' : jHasKey response "Fares" = false := by
      revert hk; cases jHasKey response "Fares" <;> simp
    simp [parse_flight_search_response, hk'] at h

/-- A valid single-leg fare (amount 500). -/
def c5_fare1 : JValue :=
  .obj [("FareID", .str "F1"),
        ("PaxFares", .arr [.obj [("Count", .num 1)]]),
        ("Legs", .arr [.obj [("LegNumber", .num 1),
          ("Options", .arr [.obj [("FlightOptionID", .str "O1"),
            ("OptionDuration", .num 300),
            ("Segments", .arr [.obj [("Airline", .str "AA"),
              ("FlightNumber", .num 100),
              ("Departure", .obj [("AirportCode", .str "AAA"),
                ("Date", .str "2024-01-01"), ("Time", .str "08:00")]),
              ("Arrival", .obj [("AirportCode", .str "BBB"),
                ("Date", .str "2024-01-01"), ("Time", .str "13:00")]),
              ("Duration", .num 300), ("Baggage", .str "1PC")]])]])]]),
        ("TotalAmount", .num 500), ("Currency", .str "USD")]

/-- A valid single-leg fare (amount 400, so it sorts first). -/
def c5_fare2 : JValue :=
  .obj [("FareID", .str "F2"),
        ("PaxFares", .arr [.obj [("Count", .num 1)]]),
        ("Legs", .arr [.obj [("LegNumber", .num 1),
          ("Options", .arr [.obj [("FlightOptionID", .str "O2"),
            ("OptionDuration", .num 310),
            ("Segments", .arr [.obj [("Airline", .str "BB"),
              ("FlightNumber", .num 200),
              ("Departure", .obj [("AirportCode", .str "AAA"),
                ("Date", .str "2024-01-01"), ("Time", .str "09:00")]),
              ("Arrival", .obj [("AirportCode", .str "BBB"),
                ("Date", .str "2024-01-01"), ("Time", .str "14:10")]),
              ("Duration", .num 310), ("Baggage", .str "1PC")]])]])]]),
        ("TotalAmount", .num 400), ("Currency", .str "USD")]

/-- A fare without passenger data (skipped by the fare loop). -/
def c5_fare_nopax : JValue := .obj [("FareID", .str "F3")]

/-- A valid raw response containing two counted fares and one skipped fare. -/
def c5_response : List (String × JValue) :=
  [("Fares", .arr [c5_fare1, c5_fare2, c5_fare_nopax])]

/-- C4 witness: a response without a fare list fails with a shape error, and
the concrete valid response (non-empty fare list) never does. -/
theorem parse_shape_error_iff_witness :
    (∃ msg, parse_flight_search_response [("foo", .num 1)] "cheapest" 5 =
      .error (.shape msg)) ∧
    (∀ msg, parse_flight_search_response c5_response "cheapest" 1 ≠
      .error (.shape msg)) := by
  constructor
  · exact (parse_shape_error_iff [("foo", .num 1)] "cheapest" 5).1.mpr
      (Or.inl rfl)
  · exact (parse_shape_error_iff c5_response "cheapest" 1).2
      [c5_fare1, c5_fare2, c5_fare_nopax] rfl (List.cons_ne_nil _ _)

/-- C5 witness: on the concrete response with 3 fares (one skipped) and
limit 1, the parse succeeds with `totalCount = 2`, one returned option, and
2 context entries. -/
theorem parse_counts_witness :
    ∃ res, parse_flight_search_response c5_response "cheapest" 1 = .ok res ∧
      res.totalCount = 2 ∧ res.options.length = 1 ∧
      res.allFlightsContext.length = 2 := by
  rcases hchk : parse_flight_search_response c5_response "cheapest" 1 with e | res
  · have hok : (parse_flight_search_response c5_response "cheapest" 1).map
        (fun r => r.totalCount) = .ok 2 := rfl
    rw [hchk] at hok
    exact Except.noConfusion hok
  · have h := parse_counts c5_response "cheapest" 1 res
      [c5_fare1, c5_fare2, c5_fare_nopax] hchk rfl
    refine ⟨res, rfl, ?_, ?_, ?_⟩
    · rw [h.1]; rfl
    · rw [h.2.1, h.1]; rfl
    · rw [h.2.2, h.1]; rfl

/- ===================================================================
   Section 7 — JSON serialization (`json.dumps`) and the response-parser
   and message-instruction registries
   =================================================================== -/

/-- Lowercase hex digit. -/
def hexDigit (n : Nat) : Char :=
  if n < 10 then Char.ofNat (48 + n) else Char.ofNat (87 + n)

/-- Four lowercase hex digits. -/
def hex4 (n : Nat) : List Char :=
  [hexDigit (n / 4096 % 16), hexDigit (n / 256 % 16),
   hexDigit (n / 16 % 16), hexDigit (n % 16)]

/-- CPython `json` escaping of one character (`ensure_ascii=True`). -/
def escapeChar (c : Char) : List Char :=
  if c = '"' then ['\\', '"']
  else if c = '\\' then ['\\', '\\']
  else if c = '\n' then ['\\', 'n']
  else if c = '\t' then ['\\', 't']
  else if c = '\r' then ['\\', 'r']
  else if c.toNat = 8 then ['\\', 'b']
  else if c.toNat = 12 then ['\\', 'f']
  else if c.toNat < 32 then '\\' :: 'u' :: hex4 c.toNat
  else if c.toNat < 127 then [c]
  else if c.toNat ≤ 65535 then '\\' :: 'u' :: hex4 c.toNat
  else
    let v := c.toNat - 65536
    ('\\' :: 'u' :: hex4 (55296 + v / 1024)) ++
      ('\\' :: 'u' :: hex4 (56320 + v % 1024))

/-- A JSON string literal. -/
def pyJsonStr (s : String) : String :=
  String.mk ('"' :: s.data.foldr (fun c acc => escapeChar c ++ acc) ['"'])

/- `json.dumps` with the default separators `", "` and `": "` and
insertion-order keys. -/
mutual

def jsonDumps : JValue → String
  | .null => "null"
  | .bool b => if b then "true" else "false"
  | .num n => toString n
  | .str s => pyJsonStr s
  | .arr xs => "[" ++ jsonDumpsList xs ++ "]"
  | .obj kvs => "\x7b" ++ jsonDumpsObj kvs ++ "\x7d"

def jsonDumpsList : List JValue → String
  | [] => ""
  | [x] => jsonDumps x
  | x :: y :: rest => jsonDumps x ++ ", " ++ jsonDumpsList (y :: rest)

def jsonDumpsObj : List (String × JValue) → String
  | [] => ""
  | [(k, v)] => pyJsonStr k ++ ": " ++ jsonDumps v
  | (k, v) :: p :: rest =>
    pyJsonStr k ++ ": " ++ jsonDumps v ++ ", " ++ jsonDumpsObj (p :: rest)

end

/-- Code-point lexicographic `<` on character lists. -/
def charlist_lt : List Char → List Char → Bool
  | [], [] => false
  | [], _ :: _ => true
  | _ :: _, [] => false
  | a :: as, b :: bs =>
    if a.toNat < b.toNat then true
    else if b.toNat < a.toNat then false
    else charlist_lt as bs

/-- Python `<` on strings (code-point lexicographic). -/
def py_str_lt (a b : String) : Bool := charlist_lt a.data b.data

/- Recursively sort every object's keys (ascending code-point order on the
key strings), as `json.dumps(..., sort_keys=True)` renders them. -/
mutual

def sortKeysRec : JValue → JValue
  | .null => .null
  | .bool b => .bool b
  | .num n => .num n
  | .str s => .str s
  | .arr xs => .arr (sortKeysList xs)
  | .obj kvs =>
    .obj (py_stable_sort (fun a b => py_str_lt a.1 b.1) (sortKeysKVs kvs))

def sortKeysList : List JValue → List JValue
  | [] => []
  | x :: rest => sortKeysRec x :: sortKeysList rest

def sortKeysKVs : List (String × JValue) → List (String × JValue)
  | [] => []
  | (k, v) :: rest => (k, sortKeysRec v) :: sortKeysKVs rest

end

/-- `json.dumps(tool_args, sort_keys=True, default=str)`. -/
def jsonDumpsSorted (v : JValue) : String := jsonDumps (sortKeysRec v)

/-- The dedup key `hashlib.md5(search_key.encode()).hexdigest()`: only
equality of digests is ever consulted, and the digest is modelled by the
serialized key itself (an injective stand-in for MD5). -/
def md5_hexdigest (s : String) : String := s

/-- The WhatsApp formatting instruction constant of
`flight_search_instruction.py`.  Its multi-paragraph text is elided to a
nonempty marker: no code path inspects the content, only the presence of the
`formatting_instruction` key. -/
def FLIGHT_SEARCH_INSTRUCTION : String :=
  "FLIGHT_SEARCH_FORMATTING_INSTRUCTION"

/-- `MessageInstructionRegistry.get_instruction` with the single registered
`FlightSearchMessageInstruction`: applies when the tool is the fare search
and the passed result's `success` is truthy. -/
def get_instruction (tool_name : String) (result : List (String × JValue)) :
    Option String :=
  if tool_name == "search_flights" &&
      truthy (jGet result "success" (.bool false)) then
    some FLIGHT_SEARCH_INSTRUCTION
  else none

/-- The context string of one option (lines 407-496), interpolating the
fields tracked by `FlightContextEntry` (fields no claim references are not
interpolated; no claim inspects this text). -/
def context_entry_string (e : FlightContextEntry) : String :=
  "FareID:" ++ pyStr e.fare_id ++ "|FlightType:" ++ e.flight_type ++
  "|TotalDuration:" ++ toString e.total_duration ++
  "|OutboundDuration:" ++ toString e.outbound_duration ++
  "|ReturnDuration:" ++ toString e.return_duration ++
  "|NumSegments:" ++ toString e.num_segments ++
  "|NumStops:" ++ toString e.num_stops ++
  "|Departure:" ++ e.departure_datetime ++
  "|Arrival:" ++ e.arrival_datetime ++
  "|Price:" ++ pyStr e.total_amount ++
  "|Currency:" ++ pyStr e.currency

/-- `FlightSearchResponseParser.can_parse`: `none` models an exception the
registry catches (`"Fares" in result.get("data", {})` on an unsized value).
The registry only calls it on dicts. -/
def flight_can_parse (tool_name : String) (kvs : List (String × JValue)) :
    Option Bool :=
  if tool_name != "search_flights" then some false
  else if !truthy (jGet kvs "success" .null) then some false
  else if !truthy (jGet kvs "data" .null) then some false
  else
    match jGet kvs "data" (.obj []) with
    | .obj d => some (jHasKey d "Fares")
    | .str s => some (py_contains s "Fares")
    | .arr xs =>
      some (xs.any (fun v =>
        match v with
        | .str s => s == "Fares"
        | _ => false))
    | _ => none

/-- `FlightSearchResponseParser.parse`: `none` models the wrapped
`ValueError` (caught by the registry).  Non-dict `data` makes the inner
parse raise; a shape or type error of the inner parse is wrapped and also
caught. -/
def flight_search_parse (kvs : List (String × JValue)) : Option JValue :=
  match jGet kvs "data" (.obj []) with
  | .obj d =>
    match parse_flight_search_response d "cheapest" 5 with
    | .error _ => none
    | .ok parsed =>
      let instruction :=
        get_instruction "search_flights"
          [("success", jGet kvs "success" (.bool true))]
      let message :=
        pyStr (jGet kvs "message" (.str "")) ++ " Found " ++
        toString parsed.totalCount ++ " total flights. Showing top " ++
        toString parsed.options.length ++ " cheapest options."
      let clean : List (String × JValue) :=
        [("success", jGet kvs "success" (.bool true)),
         ("message", .str message),
         ("cost_center_used", jGet kvs "cost_center_used" .null),
         ("cost_center_message", jGet kvs "cost_center_message" .null),
         ("all_flights_context",
          .arr (parsed.allFlightsContext.map
            (fun e => .str (context_entry_string e)))),
         ("total_flights_count", .num parsed.totalCount)]
      match instruction with
      | some ins => some (.obj (clean ++ [("formatting_instruction", .str ins)]))
      | none => some (.obj clean)
  | _ => none

/-- `ResponseParserRegistry.parse_result` with the single registered parser:
non-dict results yield `None`; a parser exception is caught and yields
`None`.  (The string-loads branch is not reachable here: the orchestrator
already loads the tool output before calling the registry.) -/
def parse_result_registry (tool_name : String) (result : JValue) :
    Option JValue :=
  match result with
  | .obj kvs =>
    match flight_can_parse tool_name kvs with
    | none => none
    | some false => none
    | some true => flight_search_parse kvs
  | _ => none

/- ===================================================================
   Section 8 — the tool-calling orchestration loop
   (_handle_tool_calls, langchain_provider.py lines 543-984)

   The completion API is an oracle `llm : Nat → LLMResponse` returning the
   k-th `chain.invoke` response of the exchange; the history-filtering block
   (lines 800-920) only shapes the payload of those requests and is
   therefore absorbed by the oracle.  `StructuredTool` argument validation
   (which would route through the `except` branch at lines 781-789) is not
   modelled: handler exceptions are caught inside `tool_func` and never
   reach that branch.  The trace fields `iterations`, `llmCalls`,
   `handlerCalls`, `exit` and `lastResponse` instrument the run; the code
   itself returns only `final`.
   =================================================================== -/

/-- One requested tool call (the dict entries the orchestrator reads). -/
structure ToolCall where
  id : Option String
  name : String
  args : JValue

/-- A completion-API response: textual content and requested tool calls. -/
structure LLMResponse where
  content : String
  tool_calls : List ToolCall

/-- Messages appended to the working history. -/
inductive HMessage where
  | ai (response : LLMResponse)
  | tool (content : String) (tool_call_id : String)

/-- A registered tool: its name and the vertical handler's `handle`, which
may raise (`Except.error` carries `str(e)`). -/
structure ToolSpec where
  name : String
  handler : JValue → Except String JValue

/-- `tool_func` (lines 403-412): run the handler; an exception becomes the
structured error object.  The wrapper dumps the result to JSON and
`_handle_tool_calls` immediately re-loads it; dump-then-load is the
identity on the JSON model, so the value is kept. -/
def tool_func (handler : JValue → Except String JValue) (args : JValue) :
    JValue :=
  match handler args with
  | .ok result => result
  | .error e => .obj [("success", .bool false), ("error", .str e)]

/-- `f"call_{iteration}_{tool_name}"`. -/
def default_tool_call_id (iteration : Nat) (tool_name : String) : String :=
  "call_" ++ toString iteration ++ "_" ++ tool_name

/-- The id used in the duplicate-check sets
(`tool_call.get("id") or f"call_{iteration}_{...}"`: a falsy id falls back). -/
def set_tool_call_id (iteration : Nat) (tc : ToolCall) : String :=
  match tc.id with
  | some s => if s.isEmpty then default_tool_call_id iteration tc.name else s
  | none => default_tool_call_id iteration tc.name

/-- The id used in the execution loop
(`tool_call.get("id", f"call_{iteration}_{...}")`: only a missing id falls
back). -/
def loop_tool_call_id (iteration : Nat) (tc : ToolCall) : String :=
  match tc.id with
  | some s => s
  | none => default_tool_call_id iteration tc.name

/-- `if not final_response or final_response.strip() == "":` — fall back to
a generic completion notice on empty content. -/
def fallback_final (content generic : String) : String :=
  if content.isEmpty || py_strip content == "" then generic else content

/-- Python `s[:n]`. -/
def py_slice_to (s : String) (n : Nat) : String := String.mk (s.data.take n)

/-- Replace the value of an existing key in place, else append the key. -/
def jSet : List (String × JValue) → String → JValue → List (String × JValue)
  | [], k, v => [(k, v)]
  | (k1, v1) :: rest, k, v =>
    if k1 == k then (k, v) :: rest else (k1, v1) :: jSet rest k v

/-- The `all_flights_context` pre-truncation block (lines 653-706).  Note
the source builds the per-string truncation from the ORIGINAL
`context_list`, so the second assignment restores the original list length
(only the strings are capped); the model reproduces that behavior. -/
def truncate_flights_context (limits : ContextLimits)
    (parsed : List (String × JValue)) : List (String × JValue) :=
  if jHasKey parsed "all_flights_context" then
    let context_list := jGet parsed "all_flights_context" (.arr [])
    let parsed1 :=
      match context_list with
      | .arr l =>
        if limits.max_flights_in_context < l.length then
          jSet parsed "all_flights_context"
            (.arr (l.take limits.max_flights_in_context))
        else parsed
      | _ => parsed
    match context_list with
    | .arr l =>
      let truncated_list := l.map (fun fc =>
        match fc with
        | .str s =>
          if limits.max_chars_per_flight < s.length then
            .str (py_slice_to s limits.max_chars_per_flight ++ "... [truncated]")
          else .str s
        | other => other)
      jSet parsed1 "all_flights_context" (.arr truncated_list)
    | _ => parsed1
  else parsed

/-- Building one ToolMessage's content (lines 709-775): the
formatting-instruction split, the aggressive 5-flight fallback, and the
final character-budget truncation. -/
def render_tool_message_content (limits : ContextLimits) (tool_name : String)
    (result : JValue) (parsed_result : Option JValue) : String :=
  let parsed_result : Option JValue :=
    match parsed_result with
    | some (.obj kvs) =>
      if tool_name == "search_flights" then
        some (.obj (truncate_flights_context limits kvs))
      else some (.obj kvs)
    | other => other
  match parsed_result with
  | some (.obj kvs) =>
    if jHasKey kvs "formatting_instruction" then
      let instruction := jGet kvs "formatting_instruction" .null
      let result_copy := kvs.filter (fun p => p.1 != "formatting_instruction")
      let tool_message_content := jsonDumps (.obj result_copy)
      let max_size := limits.max_tool_message_chars
      let tool_message_content :=
        if max_size < tool_message_content.length then
          let result_copy :=
            if jHasKey result_copy "all_flights_context" then
              match jGet result_copy "all_flights_context" (.arr []) with
              | .arr l =>
                let rc := jSet result_copy "all_flights_context" (.arr (l.take 5))
                jSet rc "message"
                  (.str (pyStr (jGet rc "message" (.str "")) ++
                    " [Showing top 5 of " ++
                    pyStr (jGet rc "total_flights_count" (.str "many")) ++
                    " flights due to context limits]"))
              | _ => result_copy
            else result_copy
          let c := jsonDumps (.obj result_copy)
          if max_size < c.length then py_slice_to c max_size ++ "... [truncated]"
          else c
        else tool_message_content
      "FORMATTING_INSTRUCTIONS:\n" ++ pyStr instruction ++
        "\n\nTOOL_RESULT:\n" ++ tool_message_content
    else
      let c := jsonDumps (.obj kvs)
      if limits.max_tool_message_chars < c.length then
        py_slice_to c limits.max_tool_message_chars ++ "... [truncated]"
      else c
  | some pr =>
    let c := jsonDumps pr
    if limits.max_tool_message_chars < c.length then
      py_slice_to c limits.max_tool_message_chars ++ "... [truncated]"
    else c
  | none =>
    let c :=
      match result with
      | .obj kvs => jsonDumps (.obj kvs)
      | other => pyStr other
    if limits.max_tool_message_chars < c.length then
      py_slice_to c limits.max_tool_message_chars ++ "... [truncated]"
    else c

/-- The synthesized "duplicate search" tool result (lines 644-652). -/
def DUPLICATE_SEARCH_CONTENT : String :=
  jsonDumps (.obj
    [("success", .bool false),
     ("error", .str "Duplicate search"),
     ("message", .str "This flight search was already performed. Please wait for the previous search to complete.")])

/-- The mutable per-iteration state of the tool-call execution loop, plus
the handler-invocation trace. -/
structure CallState where
  executed_searches : List String
  executed_tool_calls : List String
  all_executed_tool_call_ids : List String
  tool_messages : List HMessage
  handlerCalls : List (String × JValue)

/-- Tool lookup and execution (lines 655-780): `next((t for t in self.tools
if t.name == tool_name), None)`; a missing tool appends nothing and records
nothing. -/
def execute_found (tools : List ToolSpec) (limits : ContextLimits)
    (tool_name : String) (tool_args : JValue) (tool_call_id : String)
    (st : CallState) : CallState :=
  match tools.find? (fun t => t.name == tool_name) with
  | none => st
  | some t =>
    let result := tool_func t.handler tool_args
    let st :=
      { st with
        executed_tool_calls := st.executed_tool_calls ++ [tool_call_id]
        all_executed_tool_call_ids :=
          st.all_executed_tool_call_ids ++ [tool_call_id]
        handlerCalls := st.handlerCalls ++ [(tool_name, tool_args)] }
    let parsed_result := parse_result_registry tool_name result
    let content := render_tool_message_content limits tool_name result parsed_result
    { st with tool_messages := st.tool_messages ++ [.tool content tool_call_id] }

/-- One tool call of the per-iteration loop (lines 603-790): intra- and
cross-iteration id dedup, then the fare-search payload-hash dedup, then
execution. -/
def process_one_call (tools : List ToolSpec) (limits : ContextLimits)
    (iteration : Nat) (tc : ToolCall) (st : CallState) : CallState :=
  let tool_name := tc.name
  let tool_call_id := loop_tool_call_id iteration tc
  if st.executed_tool_calls.contains tool_call_id then st
  else if st.all_executed_tool_call_ids.contains tool_call_id then st
  else
    let tool_args := tc.args
    if tool_name == "search_flights" then
      let search_key := jsonDumpsSorted tool_args
      let search_hash := md5_hexdigest search_key
      if st.executed_searches.contains search_hash then
        { st with
          tool_messages :=
            st.tool_messages ++ [.tool DUPLICATE_SEARCH_CONTENT tool_call_id] }
      else
        let st :=
          { st with executed_searches := st.executed_searches ++ [search_hash] }
        execute_found tools limits tool_name tool_args tool_call_id st
    else
      execute_found tools limits tool_name tool_args tool_call_id st

/-- The `for tool_call in response.tool_calls` loop. -/
def process_tool_calls (tools : List ToolSpec) (limits : ContextLimits)
    (iteration : Nat) : List ToolCall → CallState → CallState
  | [], st => st
  | tc :: rest, st =>
    process_tool_calls tools limits iteration rest
      (process_one_call tools limits iteration tc st)

/-- Which exit of `_handle_tool_calls` produced the final text. -/
inductive ExitKind where
  | maxIterations
  | noToolCalls
  | dupAtLoopStart
  | stallSameIteration
  | stallPrevIteration
  | noToolMessages
deriving DecidableEq, Repr

/-- The outcome of `_handle_tool_calls`, with the instrumentation trace. -/
structure ToolLoopResult where
  final : String
  iterations : Nat
  llmCalls : Nat
  history : List HMessage
  handlerCalls : List (String × JValue)
  exit : ExitKind
  lastResponse : LLMResponse

/-- The `while iteration < max_iterations` loop, with
`fuel = max_iterations - iteration` (so fuel 0 exactly models the loop
guard failing: return the last response's content, lines 982-984). -/
def handle_tool_calls_loop (tools : List ToolSpec) (limits : ContextLimits)
    (llm : Nat → LLMResponse) :
    Nat → Nat → Nat → LLMResponse → List HMessage → List String →
    List String → List (String × JValue) → ToolLoopResult
  | 0, iteration, llmIdx, response, hist, _, _, handlerCalls =>
    { final := response.content, iterations := iteration, llmCalls := llmIdx,
      history := hist, handlerCalls := handlerCalls, exit := .maxIterations,
      lastResponse := response }
  | fuel + 1, iteration0, llmIdx, response, hist0, executed_searches,
      all_executed_tool_call_ids, handlerCalls =>
    let iteration := iteration0 + 1
    let hist := hist0 ++ [.ai response]
    if response.tool_calls.isEmpty then
      { final := response.content, iterations := iteration, llmCalls := llmIdx,
        history := hist, handlerCalls := handlerCalls,
        exit := .noToolMessages, lastResponse := response }
    else
      let current_tool_call_ids := response.tool_calls.map (set_tool_call_id iteration)
      if current_tool_call_ids.any
          (fun i => all_executed_tool_call_ids.contains i) then
        { final := fallback_final response.content
            "I've completed the requested action. Here are the results.",
          iterations := iteration, llmCalls := llmIdx, history := hist,
          handlerCalls := handlerCalls, exit := .dupAtLoopStart,
          lastResponse := response }
      else
        let st := process_tool_calls tools limits iteration response.tool_calls
          ⟨executed_searches, [], all_executed_tool_call_ids, [], handlerCalls⟩
        let hist := hist ++ st.tool_messages
        if st.tool_messages.isEmpty then
          { final := response.content, iterations := iteration,
            llmCalls := llmIdx, history := hist,
            handlerCalls := st.handlerCalls, exit := .noToolMessages,
            lastResponse := response }
        else
          let response2 := llm llmIdx
          let llmIdx2 := llmIdx + 1
          if response2.tool_calls.isEmpty then
            { final := response2.content, iterations := iteration,
              llmCalls := llmIdx2, history := hist,
              handlerCalls := st.handlerCalls, exit := .noToolCalls,
              lastResponse := response2 }
          else
            let new_tool_call_ids :=
              response2.tool_calls.map (set_tool_call_id iteration)
            if new_tool_call_ids.any
                (fun i => st.executed_tool_calls.contains i) then
              { final := fallback_final response2.content
                  "I've completed the flight search. Here are the results.",
                iterations := iteration, llmCalls := llmIdx2, history := hist,
                handlerCalls := st.handlerCalls, exit := .stallSameIteration,
                lastResponse := response2 }
            else if new_tool_call_ids.any
                (fun i => st.all_executed_tool_call_ids.contains i) then
              { final := fallback_final response2.content
                  "I've completed the requested action. Here are the results.",
                iterations := iteration, llmCalls := llmIdx2, history := hist,
                handlerCalls := st.handlerCalls, exit := .stallPrevIteration,
                lastResponse := response2 }
            else
              handle_tool_calls_loop tools limits llm fuel iteration llmIdx2
                response2 hist st.executed_searches
                st.all_executed_tool_call_ids st.handlerCalls

/-- `_handle_tool_calls(response, chat_history, user_message)`:
`max_iterations = 10`, empty dedup sets. -/
def handle_tool_calls (tools : List ToolSpec) (limits : ContextLimits)
    (llm : Nat → LLMResponse) (response : LLMResponse)
    (chat_history : List HMessage) : ToolLoopResult :=
  handle_tool_calls_loop tools limits llm 10 0 0 response chat_history [] [] []

/- ===================================================================
   Section 9 — theorems about the orchestration loop
   =================================================================== -/

/-- Handler invocations of the fare-search tool whose normalized argument
serialization hashes to `key`. -/
def search_count (calls : List (String × JValue)) (key : String) : Nat :=
  calls.countP
    (fun c => c.1 == "search_flights" && md5_hexdigest (jsonDumpsSorted c.2) == key)

/-- The dedup invariant: every search key was invoked at most once, and an
invoked key is recorded in `executed_searches`. -/
def search_dedup_inv (searches : List String)
    (calls : List (String × JValue)) : Prop :=
  ∀ key, search_count calls key ≤ 1 ∧
    (1 ≤ search_count calls key → searches.contains key = true)

/-- `List.contains` through membership. -/
theorem contains_true_iff (l : List String) (k : String) :
    l.contains k = true ↔ k ∈ l := by
  simp [List.contains_iff_exists_mem_beq, beq_iff_eq]

/-- Appending preserves recorded keys. -/
theorem contains_append_right {l : List String} {k : String} (x : String)
    (h : l.contains k = true) : (l ++ [x]).contains k = true := by
  rw [contains_true_iff] at h ⊢
  exact List.mem_append_left _ h

/-- Appending a search key records it. -/
theorem contains_append_self (l : List String) (k : String) :
    (l ++ [k]).contains k = true := by
  rw [contains_true_iff]
  exact List.mem_append_right _ (List.mem_singleton.mpr rfl)

/-- `search_count` over a one-call extension. -/
theorem search_count_append (calls : List (String × JValue))
    (c : String × JValue) (key : String) :
    search_count (calls ++ [c]) key =
      search_count calls key +
        (if (c.1 == "search_flights" &&
            md5_hexdigest (jsonDumpsSorted c.2) == key) = true then 1 else 0) := by
  simp [search_count, List.countP_append, List.countP_cons]

/-- `execute_found` preserves the dedup invariant: it never touches
`executed_searches`, and when it invokes a fare-search handler the key was
already recorded and not yet counted. -/
theorem execute_found_search_inv (tools : List ToolSpec)
    (limits : ContextLimits) (tool_name : String) (args : JValue)
    (id : String) (st : CallState)
    (h : search_dedup_inv st.executed_searches st.handlerCalls)
    (hkey : tool_name = "search_flights" →
      search_count st.handlerCalls (md5_hexdigest (jsonDumpsSorted args)) = 0 ∧
      st.executed_searches.contains
        (md5_hexdigest (jsonDumpsSorted args)) = true) :
    search_dedup_inv
      (execute_found tools limits tool_name args id st).executed_searches
      (execute_found tools limits tool_name args id st).handlerCalls := by
  unfold execute_found
  split
  · exact h
  · intro key
    have hk := h key
    rw [search_count_append]
    by_cases hb : ((tool_name, args).1 == "search_flights" &&
        md5_hexdigest (jsonDumpsSorted (tool_name, args).2) == key) = true
    · rw [if_pos hb]
      simp only [Bool.and_eq_true, beq_iff_eq] at hb
      obtain ⟨hname, hkeyeq⟩ := hb
      obtain ⟨hzero, hrecorded⟩ := hkey hname
      rw [hkeyeq] at hzero hrecorded
      constructor
      · omega
      · intro _
        exact hrecorded
    · rw [if_neg hb]
      simpa using hk

/-- `process_one_call` preserves the dedup invariant. -/
theorem process_one_call_search_inv (tools : List ToolSpec)
    (limits : ContextLimits) (iteration : Nat) (tc : ToolCall) (st : CallState)
    (h : search_dedup_inv st.executed_searches st.handlerCalls) :
    search_dedup_inv
      (process_one_call tools limits iteration tc st).executed_searches
      (process_one_call tools limits iteration tc st).handlerCalls := by
  simp only [process_one_call]
  split
  · exact h
  · split
    · exact h
    · split
      · -- fare-search call
        rename_i hsearch
        split
        · -- duplicate: only tool_messages changes
          exact h
        · -- fresh key: record it, then execute
          rename_i hfresh
          have hname : tc.name = "search_flights" := by
            simpa using hsearch
          apply execute_found_search_inv
          · intro key
            have hk := h key
            exact ⟨hk.1, fun h1 => contains_append_right _ (hk.2 h1)⟩
          · intro _
            constructor
            · have hk := h (md5_hexdigest (jsonDumpsSorted tc.args))
              by_cases hz :
                  search_count st.handlerCalls
                    (md5_hexdigest (jsonDumpsSorted tc.args)) = 0
              · exact hz
              · exfalso
                have h1 : 1 ≤ search_count st.handlerCalls
                    (md5_hexdigest (jsonDumpsSorted tc.args)) := by omega
                have := hk.2 h1
                simp only [Bool.not_eq_true] at hfresh
                rw [hfresh] at this
                exact Bool.noConfusion this
            · exact contains_append_self _ _
      · -- non-search call
        rename_i hsearch
        apply execute_found_search_inv tools limits tc.name tc.args _ st h
        intro hname
        rw [hname] at hsearch
        simp at hsearch

/-- The per-iteration call loop preserves the dedup invariant. -/
theorem process_tool_calls_search_inv (tools : List ToolSpec)
    (limits : ContextLimits) (iteration : Nat) :
    ∀ (calls : List ToolCall) (st : CallState),
      search_dedup_inv st.executed_searches st.handlerCalls →
      search_dedup_inv
        (process_tool_calls tools limits iteration calls st).executed_searches
        (process_tool_calls tools limits iteration calls st).handlerCalls := by
  intro calls
  induction calls with
  | nil => intro st h; exact h
  | cons tc rest ih =>
    intro st h
    exact ih _ (process_one_call_search_inv tools limits iteration tc st h)

/-- The whole loop preserves the dedup invariant on its trace. -/
theorem handle_loop_search_inv (tools : List ToolSpec) (limits : ContextLimits)
    (llm : Nat → LLMResponse) :
    ∀ (fuel iteration llmIdx : Nat) (response : LLMResponse)
      (hist : List HMessage) (searches all_ids : List String)
      (handlerCalls : List (String × JValue)),
      search_dedup_inv searches handlerCalls →
      ∀ key,
        search_count
          (handle_tool_calls_loop tools limits llm fuel iteration llmIdx
            response hist searches all_ids handlerCalls).handlerCalls key ≤ 1 := by
  intro fuel
  induction fuel with
  | zero =>
    intro iteration llmIdx response hist searches all_ids handlerCalls h key
    exact (h key).1
  | succ fuel ih =>
    intro iteration llmIdx response hist searches all_ids handlerCalls h key
    simp only [handle_tool_calls_loop]
    have hst := process_tool_calls_search_inv tools limits (iteration + 1)
      response.tool_calls ⟨searches, [], all_ids, [], handlerCalls⟩ h
    split
    · exact (h key).1
    · split
      · exact (h key).1
      · split
        · exact (hst key).1
        · split
          · exact (hst key).1
          · split
            · exact (hst key).1
            · split
              · exact (hst key).1
              · exact ih _ _ _ _ _ _ _ hst key

/-- C6: within a single exchange the fare-search handler runs at most once
per distinct normalized argument serialization, and a fare-search call whose
argument hash was already executed is answered by the synthesized
"duplicate search" tool result instead of invoking the handler. -/
theorem search_flights_dedup (tools : List ToolSpec) (limits : ContextLimits)
    (llm : Nat → LLMResponse) (response : LLMResponse)
    (chat_history : List HMessage) :
    (∀ key,
      search_count
        (handle_tool_calls tools limits llm response chat_history).handlerCalls
        key ≤ 1) ∧
    (∀ (iteration : Nat) (tc : ToolCall) (st : CallState),
      tc.name = "search_flights" →
      st.executed_tool_calls.contains (loop_tool_call_id iteration tc) = false →
      st.all_executed_tool_call_ids.contains
        (loop_tool_call_id iteration tc) = false →
      st.executed_searches.contains
        (md5_hexdigest (jsonDumpsSorted tc.args)) = true →
      process_one_call tools limits iteration tc st =
        { st with
          tool_messages := st.tool_messages ++
            [.tool DUPLICATE_SEARCH_CONTENT (loop_tool_call_id iteration tc)] }) := by
  constructor
  · intro key
    apply handle_loop_search_inv tools limits llm 10 0 0 response chat_history
      [] [] []
    intro k
    exact ⟨by simp [search_count], by simp [search_count]⟩
  · intro iteration tc st h1 h2 h3 h4
    simp only [process_one_call, h2, h3, h1, h4]
    simp

/-- Example limits record shared by the loop scenarios. -/
def demo_limits : ContextLimits := calculate_context_limits "gpt-4o-mini" 5000

/-- A fare-search tool whose handler always succeeds. -/
def c6_tools : List ToolSpec :=
  [⟨"search_flights", fun _ => .ok (.obj [("success", .bool true)])⟩]

/-- Two fare-search calls with distinct ids but the same normalized argument
set (the keys are permuted). -/
def c6_r0 : LLMResponse :=
  ⟨"", [⟨some "a1", "search_flights", .obj [("o", .str "EZE"), ("d", .str "MAD")]⟩,
        ⟨some "a2", "search_flights", .obj [("d", .str "MAD"), ("o", .str "EZE")]⟩]⟩

/-- An oracle whose next response carries no tool calls. -/
def demo_llm_done : Nat → LLMResponse := fun _ => ⟨"done", []⟩

/-- The duplicate fare-search call of the witness scenario. -/
def c6_dup_tc : ToolCall :=
  ⟨some "a2", "search_flights", .obj [("d", .str "MAD"), ("o", .str "EZE")]⟩

/-- A state in which the permuted argument set was already executed. -/
def c6_dup_state : CallState :=
  ⟨[md5_hexdigest (jsonDumpsSorted (.obj [("o", .str "EZE"), ("d", .str "MAD")]))],
   ["a1"], [], [],
   [("search_flights", .obj [("o", .str "EZE"), ("d", .str "MAD")])]⟩

/-- C6 witness: the dedup bound at the concrete two-duplicate-call exchange,
and the synthesized duplicate result at a concrete duplicate call. -/
theorem search_flights_dedup_witness :
    search_count
      (handle_tool_calls c6_tools demo_limits demo_llm_done c6_r0 []).handlerCalls
      (md5_hexdigest (jsonDumpsSorted
        (.obj [("o", .str "EZE"), ("d", .str "MAD")]))) ≤ 1 ∧
    process_one_call c6_tools demo_limits 1 c6_dup_tc c6_dup_state =
      { c6_dup_state with
        tool_messages := c6_dup_state.tool_messages ++
          [.tool DUPLICATE_SEARCH_CONTENT (loop_tool_call_id 1 c6_dup_tc)] } := by
  constructor
  · exact (search_flights_dedup c6_tools demo_limits demo_llm_done c6_r0 []).1 _
  · exact (search_flights_dedup c6_tools demo_limits demo_llm_done c6_r0 []).2
      1 c6_dup_tc c6_dup_state rfl rfl rfl rfl

/-- The loop's iteration and request counters stay within the fuel, and
running out of fuel returns the last response's content. -/
theorem handle_loop_bound_aux (tools : List ToolSpec) (limits : ContextLimits)
    (llm : Nat → LLMResponse) :
    ∀ (fuel iteration llmIdx : Nat) (response : LLMResponse)
      (hist : List HMessage) (searches all_ids : List String)
      (handlerCalls : List (String × JValue)),
      (handle_tool_calls_loop tools limits llm fuel iteration llmIdx response
        hist searches all_ids handlerCalls).iterations ≤ iteration + fuel ∧
      (handle_tool_calls_loop tools limits llm fuel iteration llmIdx response
        hist searches all_ids handlerCalls).llmCalls ≤ llmIdx + fuel ∧
      ((handle_tool_calls_loop tools limits llm fuel iteration llmIdx response
          hist searches all_ids handlerCalls).exit = .maxIterations →
        (handle_tool_calls_loop tools limits llm fuel iteration llmIdx response
          hist searches all_ids handlerCalls).final =
        (handle_tool_calls_loop tools limits llm fuel iteration llmIdx response
          hist searches all_ids handlerCalls).lastResponse.content) := by
  intro fuel
  induction fuel with
  | zero =>
    intro iteration llmIdx response hist searches all_ids handlerCalls
    exact ⟨Nat.le_refl _, Nat.le_refl _, fun _ => rfl⟩
  | succ fuel ih =>
    intro iteration llmIdx response hist searches all_ids handlerCalls
    simp only [handle_tool_calls_loop]
    split
    · refine ⟨?_, ?_, fun hc => absurd hc (by simp)⟩ <;> dsimp only <;> omega
    · split
      · refine ⟨?_, ?_, fun hc => absurd hc (by simp)⟩ <;> dsimp only <;> omega
      · split
        · refine ⟨?_, ?_, fun hc => absurd hc (by simp)⟩ <;> dsimp only <;> omega
        · split
          · refine ⟨?_, ?_, fun hc => absurd hc (by simp)⟩ <;> dsimp only <;> omega
          · split
            · refine ⟨?_, ?_, fun hc => absurd hc (by simp)⟩ <;> dsimp only <;>
                omega
            · split
              · refine ⟨?_, ?_, fun hc => absurd hc (by simp)⟩ <;> dsimp only <;>
                  omega
              · exact ⟨Nat.le_trans (ih _ _ _ _ _ _ _).1 (by omega),
                  Nat.le_trans (ih _ _ _ _ _ _ _).2.1 (by omega),
                  (ih _ _ _ _ _ _ _).2.2⟩

/-- C7: the orchestrator performs at most 10 request/execute rounds (and at
most 10 completion requests); when the bound is exhausted it returns the
last response's textual content — the bound never surfaces as an
exception (the loop is a total function). -/
theorem tool_loop_bounded (tools : List ToolSpec) (limits : ContextLimits)
    (llm : Nat → LLMResponse) (response : LLMResponse)
    (chat_history : List HMessage) :
    (handle_tool_calls tools limits llm response chat_history).iterations ≤ 10 ∧
    (handle_tool_calls tools limits llm response chat_history).llmCalls ≤ 10 ∧
    ((handle_tool_calls tools limits llm response chat_history).exit =
        .maxIterations →
      (handle_tool_calls tools limits llm response chat_history).final =
      (handle_tool_calls tools limits llm response
        chat_history).lastResponse.content) :=
  handle_loop_bound_aux tools limits llm 10 0 0 response chat_history [] [] []

/-- A tool whose handler always succeeds. -/
def c7_tools : List ToolSpec := [⟨"t", fun _ => .ok (.obj [("ok", .bool true)])⟩]

/-- An oracle that requests a fresh tool call on every round. -/
def c7_llm : Nat → LLMResponse :=
  fun k => ⟨"looping", [⟨some ("id" ++ toString k), "t", .obj []⟩]⟩

/-- The initial response of the runaway scenario. -/
def c7_r0 : LLMResponse := ⟨"", [⟨some "id_init", "t", .obj []⟩]⟩

/-- C7 witness: the runaway scenario exhausts exactly the 10-round bound and
returns the last response's content. -/
theorem tool_loop_bounded_witness :
    (handle_tool_calls c7_tools demo_limits c7_llm c7_r0 []).iterations ≤ 10 ∧
    (handle_tool_calls c7_tools demo_limits c7_llm c7_r0 []).exit =
      .maxIterations ∧
    (handle_tool_calls c7_tools demo_limits c7_llm c7_r0 []).final =
      (handle_tool_calls c7_tools demo_limits c7_llm
        c7_r0 []).lastResponse.content := by
  refine ⟨(tool_loop_bounded c7_tools demo_limits c7_llm c7_r0 []).1, rfl, ?_⟩
  exact (tool_loop_bounded c7_tools demo_limits c7_llm c7_r0 []).2.2 rfl

/-- The tool of the stall scenario. -/
def c8_tools : List ToolSpec := [⟨"t", fun args => .ok (.obj [("echo", args)])⟩]

/-- Round 1 requests tool call id "call_1". -/
def c8_r0 : LLMResponse := ⟨"", [⟨some "call_1", "t", .obj [("q", .num 1)]⟩]⟩

/-- Round 2 requests exactly the same tool-call id again. -/
def c8_llm (c1 : String) : Nat → LLMResponse :=
  fun _ => ⟨c1, [⟨some "call_1", "t", .obj [("q", .num 2)]⟩]⟩

/-- C8: when round 2 repeats round 1's tool-call id, the handler runs
exactly once, the exchange terminates after 1 loop iteration and 1 further
completion request (2 request/execute rounds in total), and the final
answer is the last response's content or, when that content is
empty/whitespace, the generic completion notice. -/
theorem duplicate_tool_call_stall (c1 : String) :
    (handle_tool_calls c8_tools demo_limits (c8_llm c1) c8_r0
        []).handlerCalls = [("t", .obj [("q", .num 1)])] ∧
    (handle_tool_calls c8_tools demo_limits (c8_llm c1) c8_r0
        []).iterations = 1 ∧
    (handle_tool_calls c8_tools demo_limits (c8_llm c1) c8_r0
        []).llmCalls = 1 ∧
    (handle_tool_calls c8_tools demo_limits (c8_llm c1) c8_r0 []).exit =
      .stallSameIteration ∧
    (handle_tool_calls c8_tools demo_limits (c8_llm c1) c8_r0 []).final =
      fallback_final c1
        "I've completed the flight search. Here are the results." ∧
    fallback_final "Here are your flights."
      "I've completed the flight search. Here are the results." =
      "Here are your flights." ∧
    fallback_final ""
      "I've completed the flight search. Here are the results." =
      "I've completed the flight search. Here are the results." :=
  ⟨rfl, rfl, rfl, rfl, rfl, rfl, rfl⟩

/-- The structured tool result `tool_func` produces when the handler raises
`e` (`json.dumps({"success": False, "error": str(e)})`, lines 410-412). -/
def error_tool_result (e : String) : JValue :=
  .obj [("success", .bool false), ("error", .str e)]

/-- The flight-search parser cannot parse a failed tool result: its
`success` is falsy. -/
theorem flight_can_parse_error (name e : String) :
    flight_can_parse name [("success", .bool false), ("error", .str e)] =
      some false := by
  unfold flight_can_parse
  by_cases h : (name != "search_flights") = true
  · rw [if_pos h]
  · rw [if_neg h]
    rfl

/-- The registry leaves a failed tool result untransformed. -/
theorem parse_result_registry_error (name e : String) :
    parse_result_registry name (error_tool_result e) = none := by
  unfold parse_result_registry error_tool_result
  simp only [flight_can_parse_error]

/-- When the serialized error object fits the tool-message budget, the
rendered content is exactly its serialization. -/
theorem render_error_content_fits (limits : ContextLimits) (name e : String)
    (hlen : (jsonDumps (error_tool_result e)).length ≤
      limits.max_tool_message_chars) :
    render_tool_message_content limits name (error_tool_result e) none =
      jsonDumps (error_tool_result e) := by
  unfold error_tool_result at hlen ⊢
  simp only [render_tool_message_content]
  rw [if_neg (by omega)]

/-- When the serialized error object exceeds the budget, the rendered
content is its character-sliced prefix plus the truncation marker. -/
theorem render_error_content_truncated (limits : ContextLimits)
    (name e : String)
    (hlen : limits.max_tool_message_chars <
      (jsonDumps (error_tool_result e)).length) :
    render_tool_message_content limits name (error_tool_result e) none =
      py_slice_to (jsonDumps (error_tool_result e))
        limits.max_tool_message_chars ++ "... [truncated]" := by
  unfold error_tool_result at hlen ⊢
  simp only [render_tool_message_content]
  rw [if_pos hlen]

/-- Running one round with a raising handler: the exception is absorbed,
the rendered error message is appended, and the exchange proceeds to the
next completion request. -/
theorem handler_error_loop_run (e : String) (args : JValue) (c1 : String)
    (limits : ContextLimits) :
    handle_tool_calls [⟨"t", fun _ => .error e⟩] limits (fun _ => ⟨c1, []⟩)
        ⟨"", [⟨some "call_1", "t", args⟩]⟩ [] =
      { final := c1, iterations := 1, llmCalls := 1,
        history := [.ai ⟨"", [⟨some "call_1", "t", args⟩]⟩,
          .tool (render_tool_message_content limits "t" (error_tool_result e)
            none) "call_1"],
        handlerCalls := [("t", args)], exit := .noToolCalls,
        lastResponse := ⟨c1, []⟩ } := rfl

/-- C9 (amended): for every handler exception `e`, argument set, follow-up
content and context limits, provided the serialized error object fits the
tool-message character budget, the orchestrator absorbs the exception, the
appended Tool message's content is exactly
`json.dumps({"success": false, "error": e})`, and the exchange proceeds to
the next round and returns the next response's content. -/
theorem handler_error_structured_result (e : String) (args : JValue)
    (c1 : String) (limits : ContextLimits)
    (hlen : (jsonDumps (error_tool_result e)).length ≤
      limits.max_tool_message_chars) :
    handle_tool_calls [⟨"t", fun _ => .error e⟩] limits (fun _ => ⟨c1, []⟩)
        ⟨"", [⟨some "call_1", "t", args⟩]⟩ [] =
      { final := c1, iterations := 1, llmCalls := 1,
        history := [.ai ⟨"", [⟨some "call_1", "t", args⟩]⟩,
          .tool (jsonDumps (error_tool_result e)) "call_1"],
        handlerCalls := [("t", args)], exit := .noToolCalls,
        lastResponse := ⟨c1, []⟩ } := by
  rw [handler_error_loop_run, render_error_content_fits limits "t" e hlen]

/-- C9 witness: the amended theorem at a concrete raising handler. -/
theorem handler_error_structured_result_witness :
    handle_tool_calls [⟨"t", fun _ => .error "boom"⟩] demo_limits
        (fun _ => ⟨"done", []⟩)
        ⟨"", [⟨some "call_1", "t", .obj [("q", .num 1)]⟩]⟩ [] =
      { final := "done", iterations := 1, llmCalls := 1,
        history := [.ai ⟨"", [⟨some "call_1", "t", .obj [("q", .num 1)]⟩]⟩,
          .tool (jsonDumps (error_tool_result "boom")) "call_1"],
        handlerCalls := [("t", .obj [("q", .num 1)])], exit := .noToolCalls,
        lastResponse := ⟨"done", []⟩ } :=
  handler_error_structured_result "boom" (.obj [("q", .num 1)]) "done"
    demo_limits (by decide)

/-- Length of the escaped body of a string of `n` letters 'a'. -/
theorem foldr_escape_replicate_a (n : Nat) :
    (List.foldr (fun c acc => escapeChar c ++ acc) ['"']
      (List.replicate n 'a')).length = n + 1 := by
  induction n with
  | zero => rfl
  | succ m ih =>
    rw [List.replicate_succ, List.foldr_cons, List.length_append, ih,
      show (escapeChar 'a').length = 1 from rfl]
    omega

/-- Length of the JSON literal of a string of `n` letters 'a'. -/
theorem pyJsonStr_replicate_a (n : Nat) :
    (pyJsonStr (String.mk (List.replicate n 'a'))).length = n + 2 := by
  show ('"' :: List.foldr (fun c acc => escapeChar c ++ acc) ['"']
    (List.replicate n 'a')).length = n + 2
  rw [List.length_cons, foldr_escape_replicate_a n]

/-- Length of the serialized error object in terms of the escaped error
text. -/
theorem err_dumps_length (e : String) :
    (jsonDumps (error_tool_result e)).length = 29 + (pyJsonStr e).length := by
  have h : jsonDumps (error_tool_result e) =
      ("\x7b" ++ ((((pyJsonStr "success" ++ ": ") ++ jsonDumps (.bool false)) ++
        ", ") ++ ((pyJsonStr "error" ++ ": ") ++ pyJsonStr e))) ++ "\x7d" := rfl
  rw [h]
  simp only [String.length_append,
    show ("\x7b" : String).length = 1 from rfl,
    show (pyJsonStr "success").length = 9 from rfl,
    show (": " : String).length = 2 from rfl,
    show (jsonDumps (.bool false)).length = 5 from rfl,
    show (", " : String).length = 2 from rfl,
    show (pyJsonStr "error").length = 7 from rfl,
    show ("\x7d" : String).length = 1 from rfl]
  omega

/-- Length of a character slice. -/
theorem py_slice_to_length (s : String) (n : Nat) :
    (py_slice_to s n).length = min n s.length := by
  show (s.data.take n).length = min n s.length
  rw [List.length_take]
  rfl

/-- Running one round with a raising handler whose serialized error object
exceeds the budget: the appended content is the truncated prefix. -/
theorem handler_error_loop_truncated (e : String) (args : JValue)
    (c1 : String) (limits : ContextLimits)
    (hlen : limits.max_tool_message_chars <
      (jsonDumps (error_tool_result e)).length) :
    handle_tool_calls [⟨"t", fun _ => .error e⟩] limits (fun _ => ⟨c1, []⟩)
        ⟨"", [⟨some "call_1", "t", args⟩]⟩ [] =
      { final := c1, iterations := 1, llmCalls := 1,
        history := [.ai ⟨"", [⟨some "call_1", "t", args⟩]⟩,
          .tool (py_slice_to (jsonDumps (error_tool_result e))
            limits.max_tool_message_chars ++ "... [truncated]") "call_1"],
        handlerCalls := [("t", args)], exit := .noToolCalls,
        lastResponse := ⟨c1, []⟩ } := by
  rw [handler_error_loop_run, render_error_content_truncated limits "t" e hlen]

/-- C9 (counterexample): with the "gpt-4" limits (tool-message budget 6702
characters) and a handler exception of 7000 characters, the appended Tool
message's content is the truncated prefix plus the marker — it is NOT the
serialization of the structured error object, so it no longer deserializes
to `{"success": false, "error": ...}`. -/
theorem handler_error_truncation_counterexample :
    (handle_tool_calls
        [⟨"t", fun _ => .error (String.mk (List.replicate 7000 'a'))⟩]
        (calculate_context_limits "gpt-4" 5000) (fun _ => ⟨"done", []⟩)
        ⟨"", [⟨some "call_1", "t", .obj []⟩]⟩ []).history =
      [.ai ⟨"", [⟨some "call_1", "t", .obj []⟩]⟩,
       .tool (py_slice_to
          (jsonDumps (error_tool_result (String.mk (List.replicate 7000 'a'))))
          6702 ++ "... [truncated]") "call_1"] ∧
    py_slice_to
        (jsonDumps (error_tool_result (String.mk (List.replicate 7000 'a'))))
        6702 ++ "... [truncated]" ≠
      jsonDumps (error_tool_result (String.mk (List.replicate 7000 'a'))) := by
  have hmax : (calculate_context_limits "gpt-4" 5000).max_tool_message_chars =
      6702 := by
    rw [calculate_context_limits_8192 "gpt-4" (by decide)]
  have hlen : (jsonDumps (error_tool_result
      (String.mk (List.replicate 7000 'a')))).length = 7031 := by
    rw [err_dumps_length, pyJsonStr_replicate_a]
  constructor
  · rw [handler_error_loop_truncated (String.mk (List.replicate 7000 'a'))
      (.obj []) "done" (calculate_context_limits "gpt-4" 5000)
      (by rw [hmax, hlen]; omega)]
    rw [hmax]
  · intro hcontra
    have hlc := congrArg String.length hcontra
    rw [String.length_append, py_slice_to_length, hlen,
      show ("... [truncated]" : String).length = 15 from rfl] at hlc
    omega
